import Mathlib

/-!
Verification development for the specio spectroscopy file-reading library.

The definitions below are a shallow embedding of the Python sources:

* `specio/core/util.py`       — the `Spectrum` record and its shape validation;
* `specio/core/functions.py`  — filename expansion, `specread`, `_zip_spectrum`;
* `specio/core/format.py`     — the `Format.Reader` state machine and the
  `FormatManager` registry (`add_format`, `sort`, `__getitem__`,
  `search_read_format`);
* `specio/core/request.py`    — the attribute surface of `Request` that the
  reader teardown relies on;
* `specio/plugins/fsm.py` and `specio/plugins/sp.py` — the binary block
  decoders, embedded at byte level.

Python dynamic failures (ValueError, IndexError, KeyError, AttributeError,
TypeError, RuntimeError, UnboundLocalError) are represented with an
explicit `Except` error monad.  Machine floats that appear in payloads are
decoded exactly into `ℚ` from their IEEE-754 bit patterns; IEEE infinities and
NaNs (maximal exponent) are outside the numeric model and are mapped to `0`
with a note at the decoder — no theorem below evaluates such a payload.
-/

/-- Python exception kinds that the embedded code can raise.  `fuelExhausted`
is the artifact of modelling unbounded `while` loops with fuel; theorems always
supply enough fuel.  `outsideModel` marks a branch whose behaviour depends on
the surrounding filesystem (it is never reached under the hypotheses used
below). -/
inductive PyErr where
  | valueError
  | indexError
  | keyError
  | typeError
  | attributeError
  | runtimeError
  | unboundLocalError
  | cannotReadSpectraError
  | fuelExhausted
  | outsideModel
  deriving DecidableEq, Repr

/-- Normalize a Python slice bound: negative indices count from the end, and
both ends are clamped into `[0, n]`. -/
def pyIdxNorm (n : ℕ) (i : ℤ) : ℕ :=
  if i < 0 then (i + n).toNat else min i.toNat n

/-- Python slice `xs[lo:hi]` (step 1), with the clamping and negative-index
rules of CPython. -/
def pySlice {α : Type} (xs : List α) (lo hi : ℤ) : List α :=
  (xs.take (pyIdxNorm xs.length hi)).drop (pyIdxNorm xs.length lo)

/-- Python indexing `xs[i]` on a list: negative indices count from the end,
out-of-range indices raise IndexError. -/
def pyIndex {α : Type} (xs : List α) (i : ℤ) : Except PyErr α :=
  let j : ℤ := if i < 0 then i + xs.length else i
  if h : 0 ≤ j ∧ j.toNat < xs.length then .ok (xs.get ⟨j.toNat, h.2⟩)
  else .error .indexError

/-- Little-endian byte assembly: `leNat [b0, b1, …]` is `b0 + 256·b1 + …`. -/
def leNat (bs : List ℕ) : ℕ :=
  bs.foldr (fun b acc => b + 256 * acc) 0

/-- Two's complement reinterpretation of a `w`-bit unsigned value. -/
def sInt (w : ℕ) (v : ℕ) : ℤ :=
  if v < 2 ^ (w - 1) then (v : ℤ) else (v : ℤ) - 2 ^ w

/-- struct.unpack code `<h`: little-endian signed 16-bit integer; raises
ValueError unless exactly two bytes are given. -/
def unpackI16 (bs : List ℕ) : Except PyErr ℤ :=
  if bs.length = 2 then .ok (sInt 16 (leNat bs)) else .error .valueError

/-- struct.unpack `<H`: little-endian unsigned 16-bit integer. -/
def unpackU16 (bs : List ℕ) : Except PyErr ℕ :=
  if bs.length = 2 then .ok (leNat bs) else .error .valueError

/-- struct.unpack `<I`: little-endian unsigned 32-bit integer. -/
def unpackU32 (bs : List ℕ) : Except PyErr ℕ :=
  if bs.length = 4 then .ok (leNat bs) else .error .valueError

/-- Exact rational value of a little-endian IEEE-754 single (4 bytes).
Exponent 255 (infinity / NaN) is outside the numeric model and yields `0`;
no theorem in this file evaluates such a payload. -/
def f32ToRat (bs : List ℕ) : ℚ :=
  let v : ℕ := leNat bs
  let s : ℕ := v / 2 ^ 31
  let e : ℕ := (v / 2 ^ 23) % 2 ^ 8
  let m : ℕ := v % 2 ^ 23
  let sgn : ℚ := if s = 0 then 1 else -1
  if e = 0 then sgn * (m : ℚ) / 2 ^ 149
  else if e = 255 then 0
  else sgn * ((2 ^ 23 + m : ℕ) : ℚ) * 2 ^ e / 2 ^ 150

/-- Exact rational value of a little-endian IEEE-754 double (8 bytes), with
the same convention as `f32ToRat` for exponent 2047. -/
def f64ToRat (bs : List ℕ) : ℚ :=
  let v : ℕ := leNat bs
  let s : ℕ := v / 2 ^ 63
  let e : ℕ := (v / 2 ^ 52) % 2 ^ 11
  let m : ℕ := v % 2 ^ 52
  let sgn : ℚ := if s = 0 then 1 else -1
  if e = 0 then sgn * (m : ℚ) / 2 ^ 1074
  else if e = 2047 then 0
  else sgn * ((2 ^ 52 + m : ℕ) : ℚ) * 2 ^ e / 2 ^ 1075

/-- Split a list into consecutive chunks of `k` elements. -/
def chunks {α : Type} (k : ℕ) : List α → List (List α)
  | [] => []
  | b :: bs =>
    if _hk : k = 0 then [] else
    (b :: bs).take k :: chunks k ((b :: bs).drop k)
termination_by bs => bs.length + 1
decreasing_by
  simp only [List.length_drop, List.length_cons]
  omega

/-- numpy.frombuffer with dtype float32: the byte length must be a multiple
of four (otherwise numpy raises ValueError). -/
def npFromBufferF32 (bs : List ℕ) : Except PyErr (List ℚ) :=
  if bs.length % 4 = 0 then .ok ((chunks 4 bs).map f32ToRat) else .error .valueError

/-- numpy.frombuffer with dtype float64. -/
def npFromBufferF64 (bs : List ℕ) : Except PyErr (List ℚ) :=
  if bs.length % 8 = 0 then .ok ((chunks 8 bs).map f64ToRat) else .error .valueError

/-! ### The numpy array model

`NpArr.nd shape data` is a rectangular numeric array with the given shape and
row-major data; `NpArr.objv elems` is a one-dimensional object array whose
entries are themselves arrays (the `-xy` layout of `util.py`).  Only the
operations the embedded code performs are modelled. -/

inductive NpArr where
  | nd (shape : List ℕ) (data : List ℚ)
  | objv (elems : List NpArr)
  deriving Repr

/-- numpy `ndim`: object arrays as built by the `-xy` layout are 1-D. -/
def NpArr.ndim : NpArr → ℕ
  | .nd sh _ => sh.length
  | .objv _ => 1

/-- numpy `shape`. -/
def NpArr.npShape : NpArr → List ℕ
  | .nd sh _ => sh
  | .objv xs => [xs.length]

/-- Elements produced by iterating a 1-D array in Python: a numeric 1-D array
yields 0-d scalars, an object array yields its stored arrays.  The embedded
code only iterates 1-D values, so other shapes yield `[]`. -/
def NpArr.elems : NpArr → List NpArr
  | .nd sh data =>
    match sh with
    | [_] => data.map (fun x => .nd [] [x])
    | _ => []
  | .objv xs => xs

/-- Elementwise closeness test of `numpy.isclose`: `|x - y| ≤ atol + rtol·|y|`. -/
def closeQ (rtol atol x y : ℚ) : Bool :=
  decide (|x - y| ≤ atol + rtol * |y|)

/-- Map a fallible function over a list, propagating the first error (the
evaluation order of a Python list comprehension). -/
def exMap {α β : Type} (f : α → Except PyErr β) : List α → Except PyErr (List β)
  | [] => .ok []
  | x :: xs => (f x).bind fun y => (exMap f xs).map (fun ys => y :: ys)

/-- Map a partial function over a list, `none` when any element fails. -/
def optMap {α β : Type} (f : α → Option β) : List α → Option (List β)
  | [] => some []
  | x :: xs => (f x).bind fun y => (optMap f xs).map (fun ys => y :: ys)

/-- numpy default `rtol` of `allclose`/`isclose`; `_zip_spectrum` passes only
`atol`, so this relative term is always part of its comparison. -/
def npRtolDefault : ℚ := 1 / 100000

/-- numpy.allclose on the array pairs the embedded code compares.  Equal-shape
numeric arrays are compared elementwise; 1-D arrays broadcast against a
length-one 1-D array; any other shape combination raises ValueError.
Comparisons involving object-dtype arrays raise TypeError (numpy cannot
subtract object arrays elementwise); those branches are never exercised by the
theorems below, which use numeric axes. -/
def npAllclose (a b : NpArr) (rtol atol : ℚ) : Except PyErr Bool :=
  match a, b with
  | .nd sha xs, .nd shb ys =>
    if sha = shb then
      .ok ((xs.zip ys).all fun p => closeQ rtol atol p.1 p.2)
    else if sha = [1] ∧ shb.length = 1 then
      .ok (ys.all fun y => closeQ rtol atol (xs.headD 0) y)
    else if shb = [1] ∧ sha.length = 1 then
      .ok (xs.all fun x => closeQ rtol atol x (ys.headD 0))
    else .error .valueError
  | _, _ => .error .typeError

/-! ### Metadata dictionaries -/

/-- Values stored in the metadata dictionaries of the decoders: Python strings
(kept as their UTF-8 bytes), integers, and floats. -/
inductive MetaVal where
  | vstr (bs : List ℕ)
  | vint (z : ℤ)
  | vflt (q : ℚ)
  deriving DecidableEq, Repr

/-- A Python dict with string keys, modelled as an insertion-ordered
association list without duplicate keys (the invariant Python maintains). -/
abbrev PyDict := List (String × MetaVal)

/-- Dict assignment `d[k] = v`: replace in place if the key exists, else
append (Python dicts preserve insertion order). -/
def dictSet (d : PyDict) (k : String) (v : MetaVal) : PyDict :=
  if d.any (fun kv => kv.1 = k) then
    d.map (fun kv => if kv.1 = k then (k, v) else kv)
  else d ++ [(k, v)]

/-- Python `d.update(e)`. -/
def dictUpdate (d e : PyDict) : PyDict :=
  e.foldl (fun acc kv => dictSet acc kv.1 kv.2) d

/-- Python `d[k]` lookup, raising KeyError when absent. -/
def dictGet (d : PyDict) (k : String) : Except PyErr MetaVal :=
  match d.find? (fun kv => kv.1 = k) with
  | some kv => .ok kv.2
  | none => .error .keyError

/-- The `meta` argument of `Spectrum.__init__`: `None`, a dict, or (as
`_zip_spectrum` passes it) a tuple of dicts.  Anything that is not `None` or a
dict is rejected by the constructor. -/
inductive PyMeta where
  | mnone
  | mdict (d : PyDict)
  | mtuple (ms : List PyDict)
  deriving DecidableEq, Repr

/-! ### util.py — the Spectrum record -/

/-- A constructed `Spectrum` object.  `Spectrum.__init__` (util.py line 125)
stores the decoded array in the attribute named `spectrum` and the axis in
`wavelength`; after construction `meta` is always a dict (`{}` replaces
`None`). -/
structure PySpectrum where
  spectrum : NpArr
  wavelength : NpArr
  meta : PyDict
  deriving Repr

/-- An argument that may or may not be a numpy array; `notArr` stands for any
non-ndarray Python value (a list, `None`, a scalar, …), which the constructor
rejects before looking at shapes. -/
inductive NpLike where
  | arr (a : NpArr)
  | notArr
  deriving Repr

/-- Embedding of `Spectrum._validate_spectrum_wavelength` (util.py lines
73-114): the branch structure on the dimensionalities of `wavelength` and
`spectrum`, raising ValueError exactly where the Python code does.  In the
1-D/1-D branch the element shapes are compared pairwise, which for numeric
arrays always succeeds (scalars have shape `()`) and for the `-xy`
object-array layout compares the nested array shapes. -/
def validateSpectrumWavelength (spectrum wavelength : NpArr) : Except PyErr Unit :=
  if wavelength.ndim = 1 ∧ spectrum.ndim = 2 then
    if wavelength.npShape.headD 0 ≠ spectrum.npShape.getD 1 0 then .error .valueError
    else .ok ()
  else if wavelength.ndim = 2 ∧ spectrum.ndim = 2 then
    if wavelength.npShape ≠ spectrum.npShape then .error .valueError
    else .ok ()
  else if wavelength.ndim = 1 ∧ spectrum.ndim = 1 then
    if wavelength.npShape ≠ spectrum.npShape then .error .valueError
    else if (wavelength.elems.zip spectrum.elems).all
        (fun p => p.1.npShape = p.2.npShape) then .ok ()
    else .error .valueError
  else .error .valueError

/-- Embedding of `Spectrum.__init__` (util.py lines 116-127): the two
isinstance checks on the arrays, the dict-or-None check on `meta`, then the
shape validation; on success the attributes `spectrum`, `wavelength` and
`meta` are set. -/
def mkSpectrum (spectrum wavelength : NpLike) (meta : PyMeta) : Except PyErr PySpectrum :=
  match spectrum with
  | .notArr => .error .valueError
  | .arr sa =>
    match wavelength with
    | .notArr => .error .valueError
    | .arr wa =>
      match meta with
      | .mtuple _ => .error .valueError
      | _ =>
        (validateSpectrumWavelength sa wa).map fun _ =>
          ⟨sa, wa, match meta with | .mdict d => d | _ => []⟩

/-! ### functions.py — `_zip_spectrum`, `_validate_filenames`, `specread` -/

/-- Reading the attribute `amplitudes` from a `Spectrum` object.  The
`Spectrum` class of util.py sets only the attributes `spectrum`, `wavelength`
and `meta` and defines no attribute or property named `amplitudes`, so this
lookup raises AttributeError (the sites in functions.py line 185 and format.py
lines 398-400 read `sp.amplitudes`). -/
def PySpectrum.amplitudesAttr (_ : PySpectrum) : Except PyErr NpArr :=
  .error .attributeError

/-- An element of the list `specread` builds: each `_get_reader_get_data`
call returns either a single `Spectrum` or a list of them. -/
inductive SpecOrList where
  | one (sp : PySpectrum)
  | many (sps : List PySpectrum)
  deriving Repr

/-- Result of `_zip_spectrum`: a merged `Spectrum`, or a Python list. -/
inductive ZipOut where
  | spec (sp : PySpectrum)
  | lst (xs : List SpecOrList)
  deriving Repr

/-- When every entry is a single `Spectrum`, extract them
(`all([isinstance(sp, Spectrum) for sp in spectrum])`). -/
def asSpectra : List SpecOrList → Option (List PySpectrum)
  | [] => some []
  | .one s :: rest => (asSpectra rest).map (fun l => s :: l)
  | .many _ :: _ => none

/-- numpy.vstack on the decoded amplitude arrays: 1-D rows are promoted to
single rows, 2-D blocks contribute their rows; a column-count mismatch or a
non-numeric entry raises ValueError.  (Dead code under the theorems below:
`_zip_spectrum` fails before reaching its stacking step.) -/
def npVstack (arrs : List NpArr) : Except PyErr NpArr :=
  match optMap (fun a =>
      match a with
      | .nd [n] d => some [(n, d)]
      | .nd [_r, c] d => some ((chunks c d).map (fun row => (c, row)))
      | _ => none) arrs with
  | none => .error .valueError
  | some rowss =>
    let rows := rowss.flatten
    match rows with
    | [] => .error .valueError
    | (c, _) :: _ =>
      if rows.all (fun row => row.1 = c) then
        .ok (.nd [rows.length, c] ((rows.map Prod.snd).flatten))
      else .error .valueError

/-- Embedding of `_zip_spectrum` (functions.py lines 147-199).  The axis
comparison is `np.allclose(sp.wavelength, wavelength, atol=tol_wavelength)`
with numpy's default `rtol`; only ValueError is caught (the comment in the
source: the comparison fails when the arrays have different sizes).  In the
merge branch the source reads `sp.amplitudes`, an attribute the `Spectrum`
class does not define. -/
def zipSpectrum (spectrum : List SpecOrList) (tolWavelength : ℚ) : Except PyErr ZipOut :=
  match asSpectra spectrum with
  | some sps =>
    match sps with
    | [] => .error .indexError
    | sp0 :: _ =>
      let wavelength := sp0.wavelength
      match exMap (fun sp => npAllclose sp.wavelength wavelength npRtolDefault tolWavelength) sps with
      | .error .valueError => .ok (.lst spectrum)
      | .error e => .error e
      | .ok consistent =>
        if ¬ consistent.all id then .ok (.lst spectrum)
        else
          (exMap PySpectrum.amplitudesAttr sps).bind fun amps =>
            let meta2d : List PyDict := sps.map PySpectrum.meta
            (npVstack amps).bind fun stacked =>
              (mkSpectrum (.arr stacked) (.arr wavelength) (.mtuple meta2d)).map ZipOut.spec
  | none =>
    .ok (.lst (((spectrum.map (fun s =>
      match s with
      | .one sp => [SpecOrList.one sp]
      | .many l => l.map SpecOrList.one)).flatten)))

/-! ### Python string primitives

Lean's built-in `String` functions are opaque to kernel reduction, so the
Python string operations the sources rely on are implemented over the
underlying character lists. -/

/-- ASCII uppercase of one character (`str.upper` on the names used here). -/
def chUp (c : Char) : Char :=
  if 'a' ≤ c ∧ c ≤ 'z' then Char.ofNat (c.toNat - 32) else c

/-- ASCII lowercase of one character. -/
def chDown (c : Char) : Char :=
  if 'A' ≤ c ∧ c ≤ 'Z' then Char.ofNat (c.toNat + 32) else c

/-- Python `s.upper()` (ASCII range, which covers the format names used). -/
def pyUpper (s : String) : String := ⟨s.data.map chUp⟩

/-- Python `s.lower()`. -/
def pyLower (s : String) : String := ⟨s.data.map chDown⟩

/-- Python `c in s` for a single character. -/
def strContainsChar (s : String) (c : Char) : Bool := s.data.contains c

/-- Python `s.endswith(suffix)`. -/
def strEndsWith (s suf : String) : Bool := suf.data.isSuffixOf s.data

/-- Python `s.strip()` restricted to ASCII whitespace. -/
def strTrim (s : String) : String :=
  let ws := fun c => c = ' ' ∨ c = '\t' ∨ c = '\n' ∨ c = '\r'
  ⟨((s.data.dropWhile ws).reverse.dropWhile ws).reverse⟩

/-- Python `s.strip(c)` for one strip character. -/
def strStripChar (s : String) (c : Char) : String :=
  ⟨((s.data.dropWhile (· = c)).reverse.dropWhile (· = c)).reverse⟩

/-- Code-point lexicographic comparison of character lists, the order Python's
`sorted` uses on strings. -/
def charsLe : List Char → List Char → Bool
  | [], _ => true
  | _ :: _, [] => false
  | a :: as, b :: bs =>
    if a.toNat < b.toNat then true
    else if b.toNat < a.toNat then false
    else charsLe as bs

/-- Python string comparison `s <= t`. -/
def pyStrLe (s t : String) : Bool := charsLe s.data t.data

/-- The comparison of `pySortStrings` as a relation. -/
def pyStrLeRel : String → String → Prop := fun s t => pyStrLe s t = true

instance : DecidableRel pyStrLeRel := fun s t =>
  instDecidableEqBool (pyStrLe s t) true

/-- Python `sorted` on strings: a stable sort by code-point order (any stable
sort agrees with CPython's timsort on the result). -/
def pySortStrings (l : List String) : List String :=
  List.insertionSort pyStrLeRel l

/-- Embedding of `_validate_filenames` (functions.py lines 122-144): each
input pattern (a single string or each element of a list) is expanded through
`glob.glob(os.path.expanduser(...))` and the matches of each pattern are
sorted; list inputs are chained in order.  `glob` and `expandUser` abstract
the filesystem: `glob` returns the existing paths matching a pattern (in an
arbitrary order — Python's `sorted` is applied on top, modelled by a stable
insertion sort). -/
def validateFilenames (glob : String → List String) (expandUser : String → String) :
    String ⊕ List String → List String
  | .inl u => pySortStrings (glob (expandUser u))
  | .inr l => (l.map (fun f => pySortStrings (glob (expandUser f)))).flatten

/-- Embedding of `specread` (functions.py lines 202-248): expand the uri(s),
read each resulting filename (`readOne` abstracts
`_get_reader_get_data(f, format, **kwargs)`), then zip when more than one
record was read, else return `spectrum[0]` — which on an empty expansion
raises IndexError. -/
def specread (glob : String → List String) (expandUser : String → String)
    (readOne : String → Except PyErr SpecOrList)
    (uri : String ⊕ List String) (tolWavelength : ℚ) : Except PyErr ZipOut :=
  let filenames := validateFilenames glob expandUser uri
  (exMap readOne filenames).bind fun spectrum =>
    if spectrum.length > 1 then zipSpectrum spectrum tolWavelength
    else
      match spectrum with
      | [] => .error .indexError
      | x :: _ => .ok (match x with
        | .one s => .spec s
        | .many l => .lst (l.map SpecOrList.one))

/-! ### format.py — the Reader state machine -/

/-- Attribute and method names defined on `Request` objects by request.py
(methods of the class plus the instance attributes set in `__init__`).  The
teardown method is named `finish` (request.py line 184); there is no `_finish`.
-/
def requestAttrNames : List String :=
  ["__init__", "_parse_uri", "filename", "mode", "kwargs", "get_file",
   "get_local_filename", "finish", "get_result", "firstbytes",
   "_read_first_bytes", "_uri_type", "_filename", "_kwargs", "_file",
   "_filename_local", "_firstbytes", "_mode"]

/-- Observable state of a `Format.Reader`: the private closed flag, the
`_BaseReader_last_index` cursor (Python initializes it to `-1`, and
`get_data` overwrites it with the raw `index` argument, which may be `None`),
and run counters for the two cleanup actions `close()` performs. -/
structure ReaderState where
  closed : Bool
  lastIndex : Option ℤ
  hookRuns : ℕ
  finishRuns : ℕ
  deriving DecidableEq, Repr

/-- Reader state right after construction. -/
def initReaderState : ReaderState := ⟨false, some (-1), 0, 0⟩

/-- The decoded payload held by a reader in `self._data`: a single `Spectrum`
or a list of them. -/
inductive ReaderData where
  | dspec (s : PySpectrum)
  | dlist (l : List PySpectrum)
  deriving Repr

/-- Result of a data access: a single `Spectrum` or a list. -/
inductive GetOut where
  | gspec (s : PySpectrum)
  | glist (l : List PySpectrum)
  deriving Repr

/-- numpy leading-axis indexing `a[i]` (used by the base `_get_data` to slice
a 2-D amplitudes buffer into one row). -/
def npGetRow (a : NpArr) (i : ℤ) : Except PyErr NpArr :=
  match a with
  | .nd (n :: rest) d =>
    let j : ℤ := if i < 0 then i + n else i
    if 0 ≤ j ∧ j < (n : ℤ) then
      let sz := rest.prod
      .ok (.nd rest ((d.drop (j.toNat * sz)).take sz))
    else .error .indexError
  | .nd [] _ => .error .indexError
  | .objv xs => pyIndex xs i

/-- Embedding of the base `Format.Reader._get_data` (format.py lines
389-409).  For a single `Spectrum` with a non-None index the source first
evaluates `self._data.amplitudes`, an attribute the `Spectrum` class does not
define, so that path raises AttributeError before any slicing; with index
`None` the attribute is never read (the `index is not None` test
short-circuits) and the whole record is returned.  For a list payload, `None`
returns the list and an integer indexes it. -/
def baseGetData (data : ReaderData) (index : Option ℤ) : Except PyErr GetOut :=
  match data with
  | .dspec s =>
    match index with
    | some i =>
      s.amplitudesAttr.bind fun amps =>
        if amps.ndim = 2 then
          (npGetRow amps i).bind fun row =>
            (mkSpectrum (.arr row) (.arr s.wavelength) (.mdict s.meta)).map GetOut.gspec
        else .ok (.gspec s)
    | none => .ok (.gspec s)
  | .dlist l =>
    match index with
    | none => .ok (.glist l)
    | some i => (pyIndex l i).map GetOut.gspec

/-- Embedding of `Format.Reader.get_data` (format.py lines 202-227): check
the reader is open (RuntimeError on a closed reader), record the raw index in
`_BaseReader_last_index`, and delegate to `_get_data`. -/
def getData (st : ReaderState) (data : ReaderData) (index : Option ℤ) :
    ReaderState × Except PyErr GetOut :=
  if st.closed then (st, .error .runtimeError)
  else ({ st with lastIndex := index }, baseGetData data index)

/-- Embedding of `Format.Reader.get_next_data` (format.py lines 229-246):
`self.get_data(self._BaseReader_last_index + 1)`.  The increment is evaluated
before `get_data` runs, so if the recorded index is `None` the addition raises
TypeError even on a closed reader. -/
def getNextData (st : ReaderState) (data : ReaderData) :
    ReaderState × Except PyErr GetOut :=
  match st.lastIndex with
  | some v => getData st data (some (v + 1))
  | none => (st, .error .typeError)

/-- Embedding of the base `Format.Reader._get_meta_data` (format.py lines
411-421) for a single-`Spectrum` payload: dicts are `Iterable`, so a non-None
index leads to `self._data.meta[index]`, an integer lookup in a str-keyed
dict, which raises KeyError; index `None` returns the dict.  For a list
payload `self._data.meta` itself raises AttributeError. -/
def baseGetMetaData (data : ReaderData) (index : Option ℤ) : Except PyErr PyDict :=
  match data with
  | .dspec s =>
    match index with
    | some _ => .error .keyError
    | none => .ok s.meta
  | .dlist _ => .error .attributeError

/-- Embedding of `Format.Reader.get_meta_data` (format.py lines 248-272):
closed check, then `_get_meta_data`. -/
def getMetaData (st : ReaderState) (data : ReaderData) (index : Option ℤ) :
    Except PyErr PyDict :=
  if st.closed then .error .runtimeError
  else baseGetMetaData data index

/-- Embedding of `Format.Reader.close` (format.py lines 327-346): a second
call returns immediately; otherwise the closed flag is set, the
format-specific `_close` hook runs, and then the source calls
`self.request._finish()` — request.py defines no attribute `_finish` (its
teardown is `finish`), so the call raises AttributeError and the request
teardown never runs. -/
def closeReader (st : ReaderState) : ReaderState × Except PyErr Unit :=
  if st.closed then (st, .ok ())
  else
    let st1 := { st with closed := true, hookRuns := st.hookRuns + 1 }
    if requestAttrNames.contains "_finish" then
      ({ st1 with finishRuns := st1.finishRuns + 1 }, .ok ())
    else (st1, .error .attributeError)

/-- Loop of `Format.Reader.iter_data` (format.py lines 274-302) from index
`i`: each step calls the plugin `_get_data`; IndexError and
CannotReadSpectraError are caught, and if the failure happens at the very
last index (`n - i == 1`) the loop warns and stops (the Bool records that the
warning was issued), otherwise the exception is re-raised; any other
exception propagates. -/
def iterFrom (get : ℕ → Except PyErr PySpectrum) (n : ℕ) (i : ℕ) :
    Except PyErr (List PySpectrum × Bool) :=
  if _h : i < n then
    match get i with
    | .ok s => (iterFrom get n (i + 1)).map (fun r => (s :: r.1, r.2))
    | .error e =>
      if e = .indexError ∨ e = .cannotReadSpectraError then
        if n - i = 1 then .ok ([], true) else .error e
      else .error e
  else .ok ([], false)
termination_by n - i

/-- Embedding of `Format.Reader.iter_data`: the generator checks the closed
flag when iteration starts, then runs the loop from index 0 over
`self.get_length()` items. -/
def iterData (st : ReaderState) (n : ℕ) (get : ℕ → Except PyErr PySpectrum) :
    Except PyErr (List PySpectrum × Bool) :=
  if st.closed then .error .runtimeError
  else iterFrom get n 0

/-! ### format.py — the FormatManager registry -/

/-- A registered format descriptor.  `canRead` is the outcome of the
format's capability probe `can_read(request)` for the (fixed) request under
consideration; `add_format`/`sort`/`__getitem__` never consult it.  Python
compares these objects by identity; the embedding compares them by value,
which coincides on the states built below. -/
structure Desc where
  name : String
  extensions : List String
  canRead : Bool
  deriving DecidableEq, Repr

/-- Embedding of `Format.__init__` normalization (format.py lines 49-64) for
a list of extensions: the name is uppercased, and each non-empty extension is
stripped of surrounding dots, lowercased and re-prefixed with one dot.  (The
comma/space-separated string form of the argument is split into such a list
by the source before this point.) -/
def mkFormat (name : String) (extensions : List String) (canRead : Bool) : Desc :=
  ⟨pyUpper name,
   (extensions.filter (fun e => e ≠ "")).map
     (fun e => "." ++ pyLower (strStripChar e '.')),
   canRead⟩

/-- State of a `FormatManager`: the base registration list `_formats` and the
separately maintained preference view `_formats_sorted`.  Iterating the
manager (`__iter__`, format.py line 443) yields `_formats_sorted`. -/
structure FM where
  formats : List Desc
  formatsSorted : List Desc
  deriving DecidableEq, Repr

/-- A fresh manager. -/
def emptyFM : FM := ⟨[], []⟩

/-- Embedding of `get_format_names` (format.py lines 604-606): names in iteration order,
i.e. from the preference-sorted view. -/
def getFormatNames (fm : FM) : List String := fm.formatsSorted.map Desc.name

/-- Sort key of `FormatManager.sort` for one name: `-((f.name == name) +
f.name.endswith(name))`. -/
def sortKey (nm : String) (f : Desc) : ℤ :=
  -(((if f.name = nm then 1 else 0) + (if strEndsWith f.name nm then 1 else 0)) : ℤ)

/-- Embedding of `FormatManager.sort` (format.py lines 498-532): reject names
containing a dot or comma, strip and uppercase them, reset the preference
view to the base list, then stably re-sort once per name in reverse order
(Python's `list.sort` is stable; a stable insertion sort reproduces it). -/
def fmSort (fm : FM) (names : List String) : Except PyErr FM :=
  if names.any (fun nm => strContainsChar nm '.' ∨ strContainsChar nm ',') then
    .error .valueError
  else
    let names2 := names.map (fun nm => pyUpper (strTrim nm))
    let sortedFinal := names2.reverse.foldl
      (fun acc nm => List.insertionSort (fun f g => sortKey nm f ≤ sortKey nm g) acc)
      fm.formats
    .ok { fm with formatsSorted := sortedFinal }

/-- Behaviour of `os.path.splitext` on a plain name (no path separators occur in the
names the registry handles): split before the last dot, except that the
leading dots of the name never start an extension. -/
def osSplitExt (p : String) : String × String :=
  let cs := p.data
  let firstNonDot := cs.findIdx? (fun c => c ≠ '.')
  let lastDot := (cs.reverse.findIdx? (fun c => c = '.')).map (fun k => cs.length - 1 - k)
  match firstNonDot, lastDot with
  | some f, some d =>
    if f < d then (⟨cs.take d⟩, ⟨cs.drop d⟩) else (p, "")
  | _, _ => (p, "")

/-- Python `name.rsplit('-', 1)[0]`. -/
def rsplitBeforeLastDash (s : String) : String :=
  match s.data.reverse.findIdx? (fun c => c = '-') with
  | some k => ⟨s.data.take (s.data.length - 1 - k)⟩
  | none => s

/-- Result of `FormatManager.__getitem__`: a descriptor, an exception, or the
filesystem-dependent delegation to `search_read_format` that the source
performs when the looked-up string names an existing file (outside this
embedding; never reached when `isfile` is constantly false). -/
inductive LookupRes where
  | found (d : Desc)
  | lerr (e : PyErr)
  | delegated
  deriving DecidableEq, Repr

/-- The extension branch of `__getitem__` (format.py lines 471-478): lowercase,
split off the extension (falling back to the stem when the extension part is
empty), and return the first format in iteration order supporting it;
IndexError when none does. -/
def fmLookupExt (fm : FM) (name : String) : LookupRes :=
  let p := osSplitExt (pyLower name)
  let key := if p.2 = "" then p.1 else p.2
  match fm.formatsSorted.find? (fun f => f.extensions.contains key) with
  | some f => .found f
  | none => .lerr .indexError

/-- Embedding of `FormatManager.__getitem__` (format.py lines 456-493) for a
string argument: empty-string check, existing-file delegation, extension
lookup when the name contains a dot, otherwise name lookup (exact uppercase
match, then match on the part before the last `-`, then retry as a
dot-prefixed extension, which first re-checks `isfile` on the retried
string). -/
def fmLookup (isfile : String → Bool) (fm : FM) (name : String) : LookupRes :=
  if name = "" then .lerr .valueError
  else if isfile name then .delegated
  else if strContainsChar name '.' then fmLookupExt fm name
  else
    let nm := pyUpper name
    match fm.formatsSorted.find? (fun f => f.name = nm) with
    | some f => .found f
    | none =>
      match fm.formatsSorted.find? (fun f => rsplitBeforeLastDash f.name = nm) with
      | some f => .found f
      | none =>
        let retry := "." ++ pyLower name
        if isfile retry then .delegated else fmLookupExt fm retry

/-- Python `list.remove`: drop the first matching element, ValueError when
absent. -/
def removeFirstDesc (l : List Desc) (d : Desc) : Except PyErr (List Desc) :=
  if l.contains d then .ok (l.erase d) else .error .valueError

/-- Embedding of `FormatManager.add_format` (format.py lines 534-565): reject
a descriptor already present; on a name collision, without `overwrite` raise,
with `overwrite` remove the entry found by `self[format.name]` from the base
list (and from the preference view if present there); finally append the new
descriptor to both views. -/
def addFormat (isfile : String → Bool) (fm : FM) (f : Desc) (overwrite : Bool) :
    Except PyErr FM :=
  if fm.formats.contains f then .error .valueError
  else if (getFormatNames fm).contains f.name then
    if overwrite then
      match fmLookup isfile fm f.name with
      | .found old =>
        (removeFirstDesc fm.formats old).map fun fs =>
          let sorted2 :=
            if fm.formatsSorted.contains old then fm.formatsSorted.erase old
            else fm.formatsSorted
          ⟨fs ++ [f], sorted2 ++ [f]⟩
      | .lerr e => .error e
      | .delegated => .error .outsideModel
    else .error .valueError
  else .ok ⟨fm.formats ++ [f], fm.formatsSorted ++ [f]⟩

/-- Extension pre-filter of `search_read_format`:
`request.filename.lower().endswith(format.extensions)` — true when any of the
descriptor's extensions is a suffix of the lowercased filename (false for an
empty extension tuple). -/
def extMatch (filename : String) (d : Desc) : Bool :=
  d.extensions.any (fun e => strEndsWith (pyLower filename) e)

/-- Probe a list of descriptors in order with `can_read`, stopping at the
first acceptor.  Returns the acceptor (if any) and the list of descriptors
that were actually consulted, in order. -/
def probe : List Desc → Option Desc × List Desc
  | [] => (none, [])
  | d :: ds =>
    if d.canRead then (some d, [d])
    else
      let r := probe ds
      (r.1, d :: r.2)

/-- Embedding of `FormatManager.search_read_format` (format.py lines 567-602),
instrumented with the list of descriptors whose `can_read` was consulted:
pass 1 walks the extension-matching descriptors of the preference-sorted view
and returns the first acceptor; pass 2 (only when pass 1 found none) walks the
same view again, skipping the descriptors already tried, and returns the
first acceptor; `none` when nobody accepts. -/
def searchReadFormatTr (fm : FM) (filename : String) : Option Desc × List Desc :=
  let selected := fm.formatsSorted.filter (extMatch filename)
  let r1 := probe selected
  match r1.1 with
  | some d => (some d, r1.2)
  | none =>
    let rest := fm.formatsSorted.filter (fun d => ! selected.contains d)
    let r2 := probe rest
    (r2.1, r1.2 ++ r2.2)

/-- The selected format of `search_read_format` (its return value). -/
def searchReadFormat (fm : FM) (filename : String) : Option Desc :=
  (searchReadFormatTr fm filename).1

/-- Modelled from the spec claim for C2 only: identical to the source's pass
1, but running the fallback pass over the registry's base list (registration
order) instead of the preference-sorted view, as the claim's words "in
registry order" state. -/
def searchReadFormatClaimC2 (fm : FM) (filename : String) : Option Desc :=
  let selected := fm.formatsSorted.filter (extMatch filename)
  match selected.find? Desc.canRead with
  | some d => some d
  | none => (fm.formats.filter (fun d => ! selected.contains d)).find? Desc.canRead

/-! ### plugins/fsm.py and plugins/sp.py — binary block decoders -/

/-- Embedding of `_block_info` (identical in fsm.py lines 20-44 and sp.py
lines 20-44): exactly six bytes are required (its own ValueError), unpacked
as `<Hi` — an unsigned 16-bit block id and a signed 32-bit block size. -/
def blockInfo (data : List ℕ) : Except PyErr (ℕ × ℤ) :=
  if data.length = 6 then
    .ok (leNat (data.take 2), sInt 32 (leNat (data.drop 2)))
  else .error .valueError

/-- Numeric value of a metadata entry (used where the tail code does float
arithmetic on decoded metadata); a string there raises TypeError. -/
def metaNum (v : MetaVal) : Except PyErr ℚ :=
  match v with
  | .vflt q => .ok q
  | .vint z => .ok (z : ℚ)
  | .vstr _ => .error .typeError

/-- Integer value of a metadata entry (`np.linspace` requires an integer
count). -/
def metaInt (v : MetaVal) : Except PyErr ℤ :=
  match v with
  | .vint z => .ok z
  | _ => .error .typeError

/-- numpy.arange on exact rationals (float rounding of the endpoints is not
modelled): `max(0, ⌈(stop-start)/step⌉)` points starting at `start`. -/
def npArange (start stop step : ℚ) : Except PyErr (List ℚ) :=
  if step = 0 then .error .valueError
  else
    let n : ℤ := max ⌈(stop - start) / step⌉ 0
    .ok ((List.range n.toNat).map (fun i => start + i * step))

/-- numpy.linspace with endpoint (the default): `num` evenly spaced points
from `start` to `stop`; a negative `num` raises ValueError. -/
def npLinspace (start stop : ℚ) (num : ℤ) : Except PyErr (List ℚ) :=
  if num < 0 then .error .valueError
  else if num = 0 then .ok []
  else if num = 1 then .ok [start]
  else .ok ((List.range num.toNat).map
    (fun i => start + i * ((stop - start) / ((num : ℚ) - 1))))

/-- Python string contents as a byte-per-character list (the names stored in
metadata are ASCII, where code points and UTF-8 bytes agree). -/
def strBytes (s : String) : List ℕ := s.data.map Char.toNat

/-- Result of one registered block decoder: a metadata dict, a numeric
payload, or Python `None` (the SP decoders whose guarding `var_id` test fails
and that have no unconditional return fall through to `None`). -/
inductive Decoded where
  | ddict (d : PyDict)
  | darr (a : NpArr)
  | dnone
  deriving Repr

/-- Embedding of fsm.py `_decode_5100` (lines 47-92): a length-prefixed name
followed by a 104-byte `<ddddddddddiiihBhBhBhB` header unpacked at fixed
offsets (ten doubles, three int32, then alternating int16/uint8 fields; the
two `h` fields discarded by the source are not stored).  struct raises when
the header slice is shorter than 104 bytes; the utf-8 decode of the name is
modelled as keeping its raw bytes. -/
def decode5100 (data : List ℕ) : Except PyErr PyDict :=
  (unpackI16 (pySlice data 0 2)).bind fun nameSize =>
    let name := pySlice data 2 (nameSize + 2)
    let header := pySlice data (nameSize + 2) (nameSize + 2 + 104)
    if header.length = 104 then
      let dbl := fun (k : ℕ) => f64ToRat ((header.drop k).take 8)
      let int32At := fun (k : ℕ) => sInt 32 (leNat ((header.drop k).take 4))
      let int16At := fun (k : ℕ) => sInt 16 (leNat ((header.drop k).take 2))
      let u8At := fun (k : ℕ) => (header.getD k 0 : ℤ)
      .ok [("name", .vstr name),
           ("x_delta", .vflt (dbl 0)), ("y_delta", .vflt (dbl 8)),
           ("z_delta", .vflt (dbl 16)), ("z_start", .vflt (dbl 24)),
           ("z_end", .vflt (dbl 32)), ("z_4d_start", .vflt (dbl 40)),
           ("z_4d_end", .vflt (dbl 48)), ("x_init", .vflt (dbl 56)),
           ("y_init", .vflt (dbl 64)), ("z_init", .vflt (dbl 72)),
           ("n_x", .vint (int32At 80)), ("n_y", .vint (int32At 84)),
           ("n_z", .vint (int32At 88)),
           ("text1", .vint (u8At 94)), ("text2", .vint (u8At 97)),
           ("resolution", .vint (int16At 98)), ("text3", .vint (u8At 100)),
           ("transmission", .vint (int16At 101)), ("text4", .vint (u8At 103))]
    else .error .valueError

/-- The tagged-field scanning loop shared by fsm.py `_decode_5104` (lines
95-134) and sp.py `_decode_5104` (lines 47-86): `#u` reads a length-prefixed
text (then skips a 6-byte envelope), `$u` reads an inline int16 (then skips 6
bytes), `,u` reads an inline int16, and any other byte advances the cursor by
one.  Data-dependent offsets may fail to progress (a negative length), which
the fuel models. -/
def tagLoop (fuel : ℕ) (data : List ℕ) (startByte : ℤ) (text : List MetaVal) :
    Except PyErr (List MetaVal) :=
  match fuel with
  | 0 => .error .fuelExhausted
  | fuel + 1 =>
    if startByte + 2 < (data.length : ℤ) then
      let tag := pySlice data startByte (startByte + 2)
      if tag = [35, 117] then
        (unpackI16 (pySlice data (startByte + 2) (startByte + 4))).bind fun textSize =>
          let s2 := startByte + 4
          tagLoop fuel data (s2 + textSize + 6) (text ++ [.vstr (pySlice data s2 (s2 + textSize))])
      else if tag = [36, 117] then
        (unpackI16 (pySlice data (startByte + 2) (startByte + 4))).bind fun v =>
          tagLoop fuel data (startByte + 10) (text ++ [.vint v])
      else if tag = [44, 117] then
        (unpackI16 (pySlice data (startByte + 2) (startByte + 4))).bind fun v =>
          tagLoop fuel data (startByte + 4) (text ++ [.vint v])
      else tagLoop fuel data (startByte + 1) text
    else .ok text

/-- Indices into the scanned tag list that fsm.py `_decode_5104` stores, in
the order of its dict literal (IndexError when the list is shorter). -/
def fsm5104Keys : List (String × ℕ) :=
  [("analyst", 0), ("date", 2), ("image_name", 4), ("instrument_model", 5),
   ("instrument_serial_number", 6), ("instrument_software_version", 7),
   ("accumulations", 9), ("detector", 11), ("source", 12),
   ("beam_splitter", 13), ("apodization", 15), ("spectrum_type", 16),
   ("beam_type", 17), ("phase_correction", 20), ("ir_accessory", 26),
   ("igram_type", 28), ("scan_direction", 29), ("background_scans", 32),
   ("ir_laser_wave_number_unit", 67)]

/-- Indices stored by sp.py `_decode_5104` (same scan, shorter schema). -/
def sp5104Keys : List (String × ℕ) :=
  [("analyst", 0), ("date", 2), ("image_name", 4), ("instrument_model", 5),
   ("instrument_serial_number", 6), ("instrument_software_version", 7),
   ("accumulations", 9), ("detector", 11), ("source", 12),
   ("beam_splitter", 13), ("apodization", 15), ("spectrum_type", 16),
   ("beam_type", 17), ("phase_correction", 20), ("ir_accessory", 26),
   ("igram_type", 28), ("scan_direction", 29), ("background_scans", 32)]

/-- Run the tag scan and build the dict for the given schema. -/
def decode5104With (keys : List (String × ℕ)) (data : List ℕ) : Except PyErr PyDict :=
  (tagLoop (data.length + 16) data 0 []).bind fun text =>
    exMap (fun kv => (pyIndex text (kv.2 : ℤ)).map (fun v => (kv.1, v))) keys

/-- fsm.py `_decode_5104`. -/
def decode5104Fsm (data : List ℕ) : Except PyErr PyDict :=
  decode5104With fsm5104Keys data

/-- sp.py `_decode_5104`. -/
def decode5104Sp (data : List ℕ) : Except PyErr PyDict :=
  decode5104With sp5104Keys data

/-- fsm.py `_decode_5105` (lines 157-173): the payload is a packed
little-endian float32 array. -/
def decode5105 (data : List ℕ) : Except PyErr NpArr :=
  (npFromBufferF32 data).map (fun l => .nd [l.length] l)

/-- The block ids with a registered decode function in fsm.py
(`FUNC_DECODE`, lines 176-178). -/
def fsmRegisteredIds : List ℕ := [5100, 5104, 5105]

/-- Dispatch through fsm.py's `FUNC_DECODE` dict: subscripting with an
unregistered id raises KeyError (fsm.py line 264 does not guard the
lookup). -/
def fsmFuncDecode (blockId : ℕ) (payload : List ℕ) : Except PyErr Decoded :=
  if blockId = 5100 then (decode5100 payload).map .ddict
  else if blockId = 5104 then (decode5104Fsm payload).map .ddict
  else if blockId = 5105 then (decode5105 payload).map .darr
  else .error .keyError

/-- The block loop of `FSM.Reader._read_fsm` (fsm.py lines 255-269): while
`start_byte + n_bytes < len(content)`, advance past the previous block, read
the six-byte block info, dispatch on the id (unguarded dict subscript), and
merge a dict result into the metadata or append an array result to the
spectrum list.  `n_bytes` enters as 40 (the description length).  The fuel
models the possibility of non-terminating cursor movement for adversarial
negative block sizes. -/
def fsmBlockLoop (fuel : ℕ) (content : List ℕ) (startByte nBytes : ℤ)
    (meta : PyDict) (spectrum : List NpArr) : Except PyErr (PyDict × List NpArr) :=
  match fuel with
  | 0 => .error .fuelExhausted
  | fuel + 1 =>
    if startByte + nBytes < (content.length : ℤ) then
      let s1 := startByte + nBytes
      (blockInfo (pySlice content s1 (s1 + 6))).bind fun bi =>
        let s2 := s1 + 6
        (fsmFuncDecode bi.1 (pySlice content s2 (s2 + bi.2))).bind fun dec =>
          match dec with
          | .ddict d => fsmBlockLoop fuel content s2 bi.2 (dictUpdate meta d) spectrum
          | .darr a => fsmBlockLoop fuel content s2 bi.2 meta (spectrum ++ [a])
          | .dnone => .error .outsideModel
    else .ok (meta, spectrum)

/-- Effect of `np.squeeze` applied to the list of decoded 1-D float rows: numpy first
stacks them into a 2-D array (ValueError when ragged; object-array fallbacks
for ragged input are outside the model), then removes the axes of size one. -/
def npSqueezeStack (spectrum : List NpArr) : Except PyErr NpArr :=
  match optMap (fun a => match a with | .nd [n] d => some (n, d) | _ => none) spectrum with
  | none => .error .valueError
  | some rows =>
    match rows with
    | [] => .ok (.nd [0] [])
    | (c, _) :: _ =>
      if rows.all (fun r => r.1 = c) then
        let m := rows.length
        let flat := (rows.map Prod.snd).flatten
        if m = 1 ∧ c = 1 then .ok (.nd [] flat)
        else if m = 1 then .ok (.nd [c] flat)
        else if c = 1 then .ok (.nd [m] flat)
        else .ok (.nd [m, c] flat)
      else .error .valueError

/-- Embedding of `FSM.Reader._read_fsm` (fsm.py lines 224-281): four
signature bytes, forty description bytes, the block loop, then the wavelength
axis `np.arange(z_start, z_end + z_delta, z_delta)` from the decoded
metadata (KeyError when block 5100 never appeared), the `filename` metadata
entry, and the `Spectrum` construction. -/
def readFsm (content : List ℕ) (filename : String) : Except PyErr PySpectrum :=
  let signature := pySlice content 0 4
  let description := pySlice content 4 44
  let meta0 : PyDict := [("signature", .vstr signature), ("description", .vstr description)]
  (fsmBlockLoop (content.length + 1) content 4 40 meta0 []).bind fun r =>
    (npSqueezeStack r.2).bind fun spectrumArr =>
      (dictGet r.1 "z_start").bind fun zs => (metaNum zs).bind fun zsq =>
        (dictGet r.1 "z_end").bind fun ze => (metaNum ze).bind fun zeq =>
          (dictGet r.1 "z_delta").bind fun zd => (metaNum zd).bind fun zdq =>
            (npArange zsq (zeq + zdq) zdq).bind fun wl =>
              let meta2 := dictSet r.1 "filename" (.vstr (strBytes filename))
              mkSpectrum (.arr spectrumArr) (.arr (.nd [wl.length] wl)) (.mdict meta2)

/-- Embedding of sp.py `_decode_25739` (lines 108-133): when the leading
`var_id` is 29987, return the length-prefixed `file_path`; otherwise the
function falls off its end and returns `None`. -/
def decode25739 (data : List ℕ) : Except PyErr Decoded :=
  (unpackU16 (pySlice data 0 2)).bind fun varId =>
    if varId = 29987 then
      (unpackU16 (pySlice data 2 4)).bind fun varSize =>
        .ok (.ddict [("file_path", .vstr (pySlice data 4 (4 + (varSize : ℤ))))])
    else .ok .dnone

/-- Embedding of sp.py `_decode_35698` (lines 136-159): the `<dd` unpack runs
only under the `var_id == 29981` guard, but the dict is returned
unconditionally, so the other path reads unbound locals
(UnboundLocalError). -/
def decode35698 (data : List ℕ) : Except PyErr Decoded :=
  (unpackU16 (pySlice data 0 2)).bind fun varId =>
    if varId = 29981 then
      let sl := pySlice data 2 18
      if sl.length = 16 then
        .ok (.ddict [("min_wavelength", .vflt (f64ToRat (sl.take 8))),
                     ("max_wavelength", .vflt (f64ToRat (sl.drop 8)))])
      else .error .valueError
    else .error .unboundLocalError

/-- Embedding of sp.py `_decode_35699` (lines 162-185), same structure with
the absolute-range keys. -/
def decode35699 (data : List ℕ) : Except PyErr Decoded :=
  (unpackU16 (pySlice data 0 2)).bind fun varId =>
    if varId = 29981 then
      let sl := pySlice data 2 18
      if sl.length = 16 then
        .ok (.ddict [("min_absolute", .vflt (f64ToRat (sl.take 8))),
                     ("max_absolute", .vflt (f64ToRat (sl.drop 8)))])
      else .error .valueError
    else .error .unboundLocalError

/-- Embedding of sp.py `_decode_35700` (lines 188-210): `<d` under a
`var_id == 29979` guard, unconditional return. -/
def decode35700 (data : List ℕ) : Except PyErr Decoded :=
  (unpackU16 (pySlice data 0 2)).bind fun varId =>
    if varId = 29979 then
      let sl := pySlice data 2 10
      if sl.length = 8 then
        .ok (.ddict [("wavelength_step", .vflt (f64ToRat sl))])
      else .error .valueError
    else .error .unboundLocalError

/-- Embedding of sp.py `_decode_35701` (lines 213-235): `<I` point count
under a `var_id == 29995` guard, unconditional return. -/
def decode35701 (data : List ℕ) : Except PyErr Decoded :=
  (unpackU16 (pySlice data 0 2)).bind fun varId =>
    if varId = 29995 then
      (unpackU32 (pySlice data 2 6)).bind fun nPoints =>
        .ok (.ddict [("n_points", .vint (nPoints : ℤ))])
    else .error .unboundLocalError

/-- Embedding of sp.py `_decode_35708` (lines 238-264): when `var_id` is
29974, a length-prefixed packed float64 array; otherwise `None`. -/
def decode35708 (data : List ℕ) : Except PyErr Decoded :=
  (unpackU16 (pySlice data 0 2)).bind fun varId =>
    if varId = 29974 then
      (unpackU32 (pySlice data 2 6)).bind fun varSize =>
        (npFromBufferF64 (pySlice data 6 (6 + (varSize : ℤ)))).map
          (fun l => .darr (.nd [l.length] l))
    else .ok .dnone

/-- The block ids registered in sp.py's `FUNC_DECODE` (lines 267-272). -/
def spRegisteredIds : List ℕ := [25739, 35698, 35699, 35700, 35701, 35708]

/-- Dispatch through sp.py's `FUNC_DECODE`; the reader guards membership
before subscripting, so the KeyError default is unreachable there. -/
def spFuncDecode (blockId : ℕ) (payload : List ℕ) : Except PyErr Decoded :=
  if blockId = 25739 then decode25739 payload
  else if blockId = 35698 then decode35698 payload
  else if blockId = 35699 then decode35699 payload
  else if blockId = 35700 then decode35700 payload
  else if blockId = 35701 then decode35701 payload
  else if blockId = 35708 then decode35708 payload
  else .error .keyError

/-- The Python variable `spectrum` of `_read_sp`: initialized to the empty
list, then possibly rebound to a decoded array — or to `None`, when a
registered decoder returned `None` (`spectrum = decoded_data` runs for every
non-dict result). -/
inductive SpSlot where
  | emptyList
  | arr (a : NpArr)
  | pnone
  deriving Repr

/-- The second block loop of `SP.Reader._read_sp` (sp.py lines 362-374):
while the cursor is inside the content, read block info, and only for ids
present in `FUNC_DECODE` run the decoder — a dict result is merged into the
metadata, any other result is bound to the `spectrum` variable; the cursor
always advances past the declared payload. -/
def spBlockLoop (fuel : ℕ) (content : List ℕ) (startByte : ℤ)
    (meta : PyDict) (slot : SpSlot) : Except PyErr (PyDict × SpSlot) :=
  match fuel with
  | 0 => .error .fuelExhausted
  | fuel + 1 =>
    if startByte < (content.length : ℤ) then
      (blockInfo (pySlice content startByte (startByte + 6))).bind fun bi =>
        let s2 := startByte + 6
        if spRegisteredIds.contains bi.1 then
          (spFuncDecode bi.1 (pySlice content s2 (s2 + bi.2))).bind fun dec =>
            match dec with
            | .ddict d => spBlockLoop fuel content (s2 + bi.2) (dictUpdate meta d) slot
            | .darr a => spBlockLoop fuel content (s2 + bi.2) meta (.arr a)
            | .dnone => spBlockLoop fuel content (s2 + bi.2) meta .pnone
        else spBlockLoop fuel content (s2 + bi.2) meta slot
    else .ok (meta, slot)

/-- The Python variable `NBP` of `_read_sp`: meant to be a list of pending
offsets, but the statement `NBP = NBP[-1]` in the inner pop loop rebinds it
to a plain integer. -/
inductive NbpVal where
  | lst (xs : List ℤ)
  | int (n : ℤ)
  deriving DecidableEq, Repr

/-- Subscript `NBP[-1]`: last element of the list (IndexError when empty); on an
integer, TypeError (an int is not subscriptable). -/
def nbpLast : NbpVal → Except PyErr ℤ
  | .lst xs =>
    match xs.getLast? with
    | some v => .ok v
    | none => .error .indexError
  | .int _ => .error .typeError

/-- Slice `NBP[:-1]`. -/
def nbpDropLast : NbpVal → Except PyErr NbpVal
  | .lst xs => .ok (.lst xs.dropLast)
  | .int _ => .error .typeError

/-- Call `NBP.append(x)` (AttributeError on an integer). -/
def nbpAppend (v : NbpVal) (x : ℤ) : Except PyErr NbpVal :=
  match v with
  | .lst xs => .ok (.lst (xs ++ [x]))
  | .int _ => .error .attributeError

/-- Subscript `NBP[1]`. -/
def nbpGet1 : NbpVal → Except PyErr ℤ
  | .lst xs => pyIndex xs 1
  | .int _ => .error .typeError

/-- The inner pop loop of `_read_sp` (sp.py lines 350-351):
`while start_byte >= NBP[-1]: NBP = NBP[-1]`.  Evaluating the condition
subscripts `NBP`, and the body rebinds `NBP` to the integer element. -/
def spPopLoop (fuel : ℕ) (startByte : ℤ) (nbp : NbpVal) : Except PyErr NbpVal :=
  match fuel with
  | 0 => .error .fuelExhausted
  | fuel + 1 =>
    (nbpLast nbp).bind fun last =>
      if startByte ≥ last then spPopLoop fuel startByte (.int last)
      else .ok nbp

/-- The block-pointer traversal of `_read_sp` (sp.py lines 345-356): while
the current block id is not the sentinel 122 and the cursor is at least two
bytes from the end, peek the two-byte marker at the cursor; when its second
byte is 117 pop the cursor to `NBP[-1]`, shrink the stack, and run the inner
pop loop; otherwise read the next block info, advance, and push
`start_byte + block_size`. -/
def spTraverse (fuel : ℕ) (content : List ℕ) (blockId : ℕ) (blockSize : ℤ)
    (startByte : ℤ) (nbp : NbpVal) : Except PyErr (ℕ × ℤ × ℤ × NbpVal) :=
  match fuel with
  | 0 => .error .fuelExhausted
  | fuel + 1 =>
    if blockId ≠ 122 ∧ startByte < (content.length : ℤ) - 2 then
      (pyIndex (pySlice content startByte (startByte + 2)) 1).bind fun marker =>
        if marker = 117 then
          (nbpLast nbp).bind fun sb2 =>
            (nbpDropLast nbp).bind fun nbp2 =>
              (spPopLoop fuel sb2 nbp2).bind fun nbp3 =>
                spTraverse fuel content blockId blockSize sb2 nbp3
        else
          (blockInfo (pySlice content startByte (startByte + 6))).bind fun bi =>
            let s2 := startByte + 6
            (nbpAppend nbp (s2 + bi.2)).bind fun nbp2 =>
              spTraverse fuel content bi.1 bi.2 s2 nbp2
    else .ok (blockId, blockSize, startByte, nbp)

/-- Embedding of `SP.Reader._read_sp` (sp.py lines 307-385): header, first
block info at offset 44, the pointer traversal, the 5104 metadata block at
the final cursor, then the second block loop from `NBP[1]`, the
`np.linspace` wavelength axis from the decoded metadata, the `filename`
entry, and the `Spectrum` construction (the `spectrum` variable may still be
the initial list or `None`, which the constructor rejects). -/
def readSp (content : List ℕ) (filename : String) : Except PyErr PySpectrum :=
  let signature := pySlice content 0 4
  let description := pySlice content 4 44
  let meta0 : PyDict := [("signature", .vstr signature), ("description", .vstr description)]
  (blockInfo (pySlice content 44 50)).bind fun bi0 =>
    let nbp0 : NbpVal := .lst [50 + bi0.2]
    (spTraverse (content.length + 1) content bi0.1 bi0.2 50 nbp0).bind fun tr =>
      match tr with
      | (_, blockSize, startByte, nbp) =>
        (decode5104Sp (pySlice content startByte (startByte + blockSize))).bind fun d5104 =>
          let meta1 := dictUpdate meta0 d5104
          (nbpGet1 nbp).bind fun sb1 =>
            (spBlockLoop (content.length + 1) content sb1 meta1 .emptyList).bind fun r =>
              (dictGet r.1 "min_wavelength").bind fun mn => (metaNum mn).bind fun mnq =>
                (dictGet r.1 "max_wavelength").bind fun mx => (metaNum mx).bind fun mxq =>
                  (dictGet r.1 "n_points").bind fun np => (metaInt np).bind fun npz =>
                    (npLinspace mnq mxq npz).bind fun wl =>
                      let meta2 := dictSet r.1 "filename" (.vstr (strBytes filename))
                      let spArg : NpLike :=
                        match r.2 with
                        | .arr a => .arr a
                        | _ => .notArr
                      mkSpectrum spArg (.arr (.nd [wl.length] wl)) (.mdict meta2)

/-! ### Concrete fixtures used by the theorems -/

/-- A small constructed `Spectrum`: amplitudes `[1, 2]` on the axis `[0, 1]`
with empty metadata. -/
def sampleSpec : PySpectrum := ⟨.nd [2] [1, 2], .nd [2] [0, 1], []⟩

/-- A second record on the identical axis `[0, 1]`. -/
def sampleSpec2 : PySpectrum := ⟨.nd [2] [3, 4], .nd [2] [0, 1], []⟩

/-- SP content triggering the same-level continuation branch with a
single-entry pending-offset stack: a zeroed 44-byte header, a first block
header with id 0 and size 0 (bytes 44-49), and the continuation marker byte
117 at offset 51 (the second byte of the marker read at cursor 50). -/
def c3SpContent : List ℕ := List.replicate 51 0 ++ [117, 0]

/-- SP content whose continuation branch must pop more than one level: two
zero-size blocks push the offsets 50 and 56, and the marker at cursor 56
(byte 117 at offset 57) pops to 56, which is at or past the remaining
pending offset 50, so the inner pop loop runs its body. -/
def c3SpContent2 : List ℕ := List.replicate 57 0 ++ [117, 0]

/-- A third record whose axis `[0, 10]` differs from `[0, 1]` by far more
than the tolerance. -/
def sampleSpecFar : PySpectrum := ⟨.nd [2] [5, 6], .nd [2] [0, 10], []⟩

/-- A record whose axis has three points instead of two. -/
def sampleSpecLen3 : PySpectrum := ⟨.nd [3] [5, 6, 7], .nd [3] [0, 1, 2], []⟩

/-- FSM content whose single block carries the unregistered id 9999
(`0x270F`, bytes `[15, 39]` little-endian) with size 0: 44 zeroed header
bytes followed by the six-byte block info. -/
def c6FsmContent : List ℕ := List.replicate 44 0 ++ [15, 39, 0, 0, 0, 0]

/-- The reader state after the first `close()` on a fresh reader: closed,
plugin hook run once, request teardown never run. -/
def c5ClosedState : ReaderState := ⟨true, some (-1), 1, 0⟩

/-- Descriptor `AAA` with extension `.foo`, accepting its probe. -/
def c2DescA : Desc := mkFormat "aaa" ["foo"] true

/-- Descriptor `BBB` with extension `.bar`, accepting its probe. -/
def c2DescB : Desc := mkFormat "bbb" ["bar"] true

/-- A registry built by registering `AAA` then `BBB` and then calling
`formats.sort("bbb")`, so the base list is `[AAA, BBB]` while the
preference-sorted view is `[BBB, AAA]`. -/
def c2FM : Except PyErr FM :=
  (addFormat (fun _ => false) emptyFM c2DescA false).bind fun fm1 =>
    (addFormat (fun _ => false) fm1 c2DescB false).bind fun fm2 =>
      fmSort fm2 ["bbb"]

/-- A format named `A.B` (the name contains a dot) with extension `.c`. -/
def c8F1 : Desc := mkFormat "a.b" ["c"] true

/-- A format named `OTHER` whose extension `.b` collides with what
`__getitem__` extracts from the name `A.B`. -/
def c8F2 : Desc := mkFormat "other" ["b"] true

/-- A second format named `A.B`, to be added with `overwrite=True`. -/
def c8F3 : Desc := mkFormat "a.b" ["d"] false

/-- Register `A.B` and `OTHER`, then re-register a format named `A.B` with
`overwrite=True`. -/
def c8FM : Except PyErr FM :=
  (addFormat (fun _ => false) emptyFM c8F1 false).bind fun fm1 =>
    (addFormat (fun _ => false) fm1 c8F2 false).bind fun fm2 =>
      addFormat (fun _ => false) fm2 c8F3 true

/-- Well-formedness of a registry state: the preference view is a
permutation of the base list and no two registered descriptors share a
name. -/
def WFfm (fm : FM) : Prop :=
  fm.formats.Perm fm.formatsSorted ∧ (fm.formatsSorted.map Desc.name).Nodup

/-- A registered dot-free format for the C8 witness. -/
def c8WitX : Desc := ⟨"X", [], true⟩

/-- A replacement format with the same name `X`. -/
def c8WitF : Desc := ⟨"X", [".y"], false⟩

/-- A toy filesystem for the C10 witness: exactly `a.csv` and `b.csv`
exist, and a pattern matches only itself. -/
def c10Glob : String → List String :=
  fun s => if s = "a.csv" ∨ s = "b.csv" then [s] else []

/-- A reader stub for the C10 witness: every existing file decodes to
`sampleSpec`. -/
def c10ReadOne : String → Except PyErr SpecOrList :=
  fun _ => .ok (.one sampleSpec)

instance {ε α : Type} [DecidableEq ε] [DecidableEq α] : DecidableEq (Except ε α) :=
  fun x y =>
    match x, y with
    | .ok a, .ok b =>
      if h : a = b then .isTrue (congrArg Except.ok h)
      else .isFalse (fun hh => h (Except.ok.inj hh))
    | .error a, .error b =>
      if h : a = b then .isTrue (congrArg Except.error h)
      else .isFalse (fun hh => h (Except.error.inj hh))
    | .ok _, .error _ => .isFalse (fun hh => Except.noConfusion hh)
    | .error _, .ok _ => .isFalse (fun hh => Except.noConfusion hh)

/-! ### Theorems -/

/-- Lemma: `np.isclose` accepts a value against itself whenever both tolerances are
nonnegative. -/
theorem closeQ_self (rtol atol x : ℚ) (hr : 0 ≤ rtol) (ha : 0 ≤ atol) :
    closeQ rtol atol x x = true := by
  simp only [closeQ, decide_eq_true_eq, sub_self, abs_zero]
  positivity

/-- Claim C1 (code bug): for two single `Spectrum` records with identical
coordinate axes, `_zip_spectrum` is claimed to return one merged `Spectrum`
with stacked amplitudes and tuple metadata; instead the merge branch raises
AttributeError, because it reads `sp.amplitudes` while the `Spectrum` class
of util.py stores the array under the attribute `spectrum` (the repository's
own tests, e.g. `test_specread_consitent_wavelength`, expect the merge to
succeed).  The no-merge paths of the claim do hold: an axis differing by far
more than the tolerance, or axes of different lengths, return the original
list unchanged without raising. -/
theorem C1_zip_merge_crashes :
    zipSpectrum [.one sampleSpec, .one sampleSpec2] (1 / 100000) =
      .error .attributeError
    ∧ zipSpectrum [.one sampleSpec, .one sampleSpecFar] (1 / 100000) =
      .ok (.lst [.one sampleSpec, .one sampleSpecFar])
    ∧ zipSpectrum [.one sampleSpec, .one sampleSpecLen3] (1 / 100000) =
      .ok (.lst [.one sampleSpec, .one sampleSpecLen3]) := by
  have hc : ∀ x : ℚ, closeQ npRtolDefault (1 / 100000) x x = true := fun x =>
    closeQ_self _ _ x (by norm_num [npRtolDefault]) (by norm_num)
  have hfar : closeQ npRtolDefault (1 / 100000) 10 1 = false := by
    simp only [closeQ, npRtolDefault, decide_eq_false_iff_not]
    norm_num
  refine ⟨?_, ?_, ?_⟩
  · simp only [zipSpectrum, asSpectra, sampleSpec, sampleSpec2, exMap, npAllclose,
      Option.map, List.zip, List.zipWith, List.all, hc, PySpectrum.amplitudesAttr]
    rfl
  · simp only [zipSpectrum, asSpectra, sampleSpec, sampleSpecFar, exMap, npAllclose,
      Option.map, List.zip, List.zipWith, List.all, hc, hfar]
    rfl
  · simp only [zipSpectrum, asSpectra, sampleSpec, sampleSpecLen3, exMap, npAllclose,
      Option.map, List.zip, List.zipWith, List.all, hc]
    rfl

/-- Claim C3 (code bug): the SP block-pointer traversal is claimed to pop to
the parent offset without type errors or stack underflow on every stream
reaching the continuation branch; on `c3SpContent` (first block id 0, size 0,
marker byte 117 at the cursor) the branch pops the only pending offset and
the inner loop then evaluates `NBP[-1]` on the empty list, raising
IndexError; on `c3SpContent2` (two pushed offsets, popping where the inner
loop body must run) the statement `NBP = NBP[-1]` rebinds the stack to a
plain integer and the next `NBP[-1]` raises TypeError. -/
theorem C3_sp_pop_underflow :
    readSp c3SpContent "spectra.sp" = .error .indexError
    ∧ readSp c3SpContent2 "spectra.sp" = .error .typeError := ⟨rfl, rfl⟩

/-- Claim C5 (code bug): after the first `close()` the reader is closed, the
plugin cleanup hook has run, and every data operation raises the
closed-reader RuntimeError, and a second `close()` is a no-op — but the first
`close()` itself raises AttributeError instead of returning, because
format.py line 346 calls `self.request._finish()` while request.py only
defines `finish`; the request teardown therefore never runs. -/
theorem C5_close_calls_missing_finish :
    closeReader initReaderState = (c5ClosedState, .error .attributeError)
    ∧ closeReader c5ClosedState = (c5ClosedState, .ok ())
    ∧ c5ClosedState.finishRuns = 0
    ∧ (getData c5ClosedState (.dspec sampleSpec) (some 0)).2 = .error .runtimeError
    ∧ (getData c5ClosedState (.dspec sampleSpec) none).2 = .error .runtimeError
    ∧ (getNextData c5ClosedState (.dspec sampleSpec)).2 = .error .runtimeError
    ∧ getMetaData c5ClosedState (.dspec sampleSpec) none = .error .runtimeError
    ∧ iterData c5ClosedState 1 (fun _ => .ok sampleSpec) = .error .runtimeError :=
  ⟨rfl, rfl, rfl, rfl, rfl, rfl, rfl, rfl⟩

/-- Claim C9 (code bug): on a reader holding one decoded `Spectrum`,
`get_data(None)` returns the whole record, but `get_data` with any integer
index raises AttributeError instead of slicing or raising IndexError,
because the base `_get_data` reads `self._data.amplitudes`, an attribute the
`Spectrum` class does not define (the repository's own
`test_common.test_get_reader` expects `get_data(0)` to succeed). -/
theorem C9_get_data_integer_index_crashes :
    getData initReaderState (.dspec sampleSpec) none =
      ({ initReaderState with lastIndex := none }, .ok (.gspec sampleSpec))
    ∧ getData initReaderState (.dspec sampleSpec) (some 0) =
      ({ initReaderState with lastIndex := some 0 }, .error .attributeError)
    ∧ getData initReaderState (.dspec sampleSpec) (some 5) =
      ({ initReaderState with lastIndex := some 5 }, .error .attributeError) :=
  ⟨rfl, rfl, rfl⟩

/-- Claim C6 (counterexample): decoding FSM content whose first block has the
unregistered id 9999 is claimed to skip the block silently and continue; the
FSM reader instead raises KeyError at the unguarded `FUNC_DECODE[block_id]`
subscript. -/
theorem C6_counterexample_fsm_keyerror :
    readFsm c6FsmContent "spectra.fsm" = .error .keyError := by rfl

/-- Claim C6 (amended): in the SP reader's block loop a block id with no
registered decode function contributes neither metadata nor spectrum data
and the cursor advances past it to the following block, while in the FSM
reader an unregistered block id raises KeyError (its dispatch is an
unguarded dict subscript). -/
theorem C6_unknown_block_policy :
    (∀ (fuel : ℕ) (content : List ℕ) (s : ℤ) (meta : PyDict) (slot : SpSlot)
        (bid : ℕ) (bsize : ℤ),
      blockInfo (pySlice content s (s + 6)) = .ok (bid, bsize) →
      s < (content.length : ℤ) →
      spRegisteredIds.contains bid = false →
      spBlockLoop (fuel + 1) content s meta slot =
        spBlockLoop fuel content (s + 6 + bsize) meta slot)
    ∧ (∀ (fuel : ℕ) (content : List ℕ) (s nb : ℤ) (meta : PyDict)
        (specs : List NpArr) (bid : ℕ) (bsize : ℤ),
      s + nb < (content.length : ℤ) →
      blockInfo (pySlice content (s + nb) (s + nb + 6)) = .ok (bid, bsize) →
      fsmRegisteredIds.contains bid = false →
      fsmBlockLoop (fuel + 1) content s nb meta specs = .error .keyError) := by
  constructor
  · intro fuel content s meta slot bid bsize h1 h2 h3
    simp only [spBlockLoop]
    rw [if_pos h2, h1]
    simp only [Except.bind, h3]
    norm_num [add_assoc]
  · intro fuel content s nb meta specs bid bsize h1 h2 h3
    have hne : bid ≠ 5100 ∧ bid ≠ 5104 ∧ bid ≠ 5105 := by
      simpa [fsmRegisteredIds, not_or] using h3
    simp only [fsmBlockLoop]
    rw [if_pos h1, h2]
    simp only [Except.bind, fsmFuncDecode, hne.1, hne.2.1, hne.2.2, if_false]

/-- Witness for C6: one concrete skipped block in the SP loop (id 9999, size
0) and one concrete KeyError step in the FSM loop. -/
theorem C6_unknown_block_policy_witness :
    spBlockLoop 2 [15, 39, 0, 0, 0, 0] 0 [] .emptyList =
      spBlockLoop 1 [15, 39, 0, 0, 0, 0] 6 [] .emptyList
    ∧ fsmBlockLoop 1 (List.replicate 44 0 ++ [15, 39, 0, 0, 0, 0]) 4 40 [] [] =
      .error .keyError := by
  constructor
  · have h := C6_unknown_block_policy.1 1 [15, 39, 0, 0, 0, 0] 0 [] .emptyList
      9999 0 (by rfl) (by decide) (by decide)
    simpa using h
  · exact C6_unknown_block_policy.2 0 (List.replicate 44 0 ++ [15, 39, 0, 0, 0, 0])
      4 40 [] [] 9999 0 (by decide) (by rfl) (by decide)

/-- Array dimensionality is the length of the shape. -/
theorem NpArr.ndim_eq_length_npShape (a : NpArr) : a.ndim = a.npShape.length := by
  cases a <;> rfl

/-- When the shape validation succeeds, the amplitudes are 1-D or 2-D and a
1-D numeric axis has the length of the last amplitude dimension. -/
theorem validate_ok_facts (s w : NpArr)
    (h : validateSpectrumWavelength s w = .ok ()) :
    (s.ndim = 1 ∨ s.ndim = 2) ∧
      (∀ (n : ℕ) (wdata : List ℚ), w = .nd [n] wdata →
        s.npShape.getLast? = some n) := by
  unfold validateSpectrumWavelength at h
  split_ifs at h with h1 h2 h3 h4 h5 h6 h7 <;> try (exact Except.noConfusion h)
  · refine ⟨Or.inr h1.2, ?_⟩
    rintro n wdata rfl
    have hs2 : s.npShape.length = 2 := by
      rw [← NpArr.ndim_eq_length_npShape]; exact h1.2
    obtain ⟨a, b, hab⟩ := List.length_eq_two.mp hs2
    have hn := not_not.mp h2
    rw [hab] at hn
    simp only [NpArr.npShape, List.headD_cons, List.getD_cons_succ,
      List.getD_cons_zero] at hn
    rw [hab, hn]
    rfl
  · refine ⟨Or.inr h3.2, ?_⟩
    rintro n wdata rfl
    have hone : (NpArr.nd [n] wdata).ndim = 1 := rfl
    rw [h3.1] at hone
    cases hone
  · refine ⟨Or.inl h5.2, ?_⟩
    rintro n wdata rfl
    have hsh : s.npShape = [n] := (not_not.mp h6).symm
    rw [hsh]
    rfl

/-- A successful construction passed the validation and stored both arrays
unchanged. -/
theorem mkSpectrum_ok_inv (s w : NpArr) (m : PyMeta) (sp : PySpectrum)
    (h : mkSpectrum (.arr s) (.arr w) m = .ok sp) :
    validateSpectrumWavelength s w = .ok () ∧ sp.spectrum = s ∧ sp.wavelength = w := by
  cases m <;> simp only [mkSpectrum] at h
  case mtuple ms => exact Except.noConfusion h
  all_goals {
    cases hv : validateSpectrumWavelength s w with
    | error e => rw [hv] at h; exact Except.noConfusion h
    | ok u =>
      cases u
      rw [hv] at h
      simp only [Except.map] at h
      cases h
      exact ⟨rfl, rfl, rfl⟩ }

/-- A coordinate-length mismatch against a 1-D axis makes the validation
raise ValueError. -/
theorem validate_err_mismatch (s w : NpArr) (hw : w.ndim = 1)
    (hs : s.ndim = 1 ∨ s.ndim = 2)
    (hmm : s.npShape.getLast? ≠ some (w.npShape.headD 0)) :
    validateSpectrumWavelength s w = .error .valueError := by
  obtain ⟨b, hwsh⟩ := List.length_eq_one.mp
    (by rw [← NpArr.ndim_eq_length_npShape]; exact hw)
  unfold validateSpectrumWavelength
  rcases hs with hs | hs
  · obtain ⟨a, hssh⟩ := List.length_eq_one.mp
      (by rw [← NpArr.ndim_eq_length_npShape]; exact hs)
    rw [hssh, hwsh] at hmm
    have hne : w.npShape ≠ s.npShape := by
      rw [hwsh, hssh]
      intro hEq
      cases hEq
      exact hmm rfl
    rw [if_neg (by rintro ⟨-, h2⟩; omega), if_neg (by rintro ⟨h1, -⟩; omega),
      if_pos ⟨hw, hs⟩, if_pos hne]
  · obtain ⟨a, b2, hssh⟩ := List.length_eq_two.mp
      (by rw [← NpArr.ndim_eq_length_npShape]; exact hs)
    rw [hssh, hwsh] at hmm
    rw [if_pos ⟨hw, hs⟩, hwsh, hssh]
    have key : ([b].headD 0 ≠ [a, b2].getD 1 0) := by
      intro hEq
      apply hmm
      simp only [List.headD_cons, List.getD_cons_succ, List.getD_cons_zero] at hEq
      rw [hEq]
      rfl
    rw [if_pos key]

/-- Amplitudes that are neither 1-D nor 2-D make the validation raise
ValueError. -/
theorem validate_err_dim (s w : NpArr) (hs1 : s.ndim ≠ 1) (hs2 : s.ndim ≠ 2) :
    validateSpectrumWavelength s w = .error .valueError := by
  unfold validateSpectrumWavelength
  rw [if_neg (by rintro ⟨-, h⟩; exact hs2 h),
    if_neg (by rintro ⟨-, h⟩; exact hs2 h),
    if_neg (by rintro ⟨-, h⟩; exact hs1 h)]

/-- A validation failure surfaces as the constructor's ValueError for every
metadata argument. -/
theorem mkSpectrum_err_of_validate (s w : NpArr) (m : PyMeta)
    (h : validateSpectrumWavelength s w = .error .valueError) :
    mkSpectrum (.arr s) (.arr w) m = .error .valueError := by
  cases m <;> simp only [mkSpectrum, h] <;> rfl

/-- Claim C7 (confirmed): constructing a `Spectrum` succeeds only for
amplitude arrays of dimensionality 1 or 2 (object `-xy` arrays being 1-D),
with the stored arrays unchanged, and for a 1-D numeric coordinate axis the
axis length equals the last amplitude dimension; a coordinate-length
mismatch against a 1-D axis, or an unsupported dimensionality, raises
ValueError at construction time. -/
theorem C7_spectrum_construction :
    (∀ (s w : NpArr) (m : PyMeta) (sp : PySpectrum),
      mkSpectrum (.arr s) (.arr w) m = .ok sp →
      (s.ndim = 1 ∨ s.ndim = 2) ∧ sp.spectrum = s ∧ sp.wavelength = w ∧
        (∀ (n : ℕ) (wdata : List ℚ), w = .nd [n] wdata →
          s.npShape.getLast? = some n))
    ∧ (∀ (s w : NpArr) (m : PyMeta), w.ndim = 1 → (s.ndim = 1 ∨ s.ndim = 2) →
        s.npShape.getLast? ≠ some (w.npShape.headD 0) →
        mkSpectrum (.arr s) (.arr w) m = .error .valueError)
    ∧ (∀ (s w : NpArr) (m : PyMeta), s.ndim ≠ 1 → s.ndim ≠ 2 →
        mkSpectrum (.arr s) (.arr w) m = .error .valueError) := by
  refine ⟨?_, ?_, ?_⟩
  · intro s w m sp h
    obtain ⟨hv, hs, hw⟩ := mkSpectrum_ok_inv s w m sp h
    obtain ⟨hd, hlen⟩ := validate_ok_facts s w hv
    exact ⟨hd, hs, hw, hlen⟩
  · intro s w m hw hs hmm
    exact mkSpectrum_err_of_validate s w m (validate_err_mismatch s w hw hs hmm)
  · intro s w m h1 h2
    exact mkSpectrum_err_of_validate s w m (validate_err_dim s w h1 h2)

/-- Witness for C7: a concrete successful construction yields the length
invariant, and a concrete length mismatch and a concrete 0-d amplitude array
are rejected with ValueError. -/
theorem C7_spectrum_construction_witness :
    (NpArr.nd [2] [1, 2]).npShape.getLast? = some 2
    ∧ mkSpectrum (.arr (.nd [3] [1, 2, 3])) (.arr (.nd [2] [0, 1])) .mnone =
        .error .valueError
    ∧ mkSpectrum (.arr (.nd [] [7])) (.arr (.nd [2] [0, 1])) .mnone =
        .error .valueError := by
  refine ⟨?_, ?_, ?_⟩
  · exact (C7_spectrum_construction.1 (.nd [2] [1, 2]) (.nd [2] [0, 1]) .mnone
      ⟨.nd [2] [1, 2], .nd [2] [0, 1], []⟩ rfl).2.2.2 2 [0, 1] rfl
  · exact C7_spectrum_construction.2.1 (.nd [3] [1, 2, 3]) (.nd [2] [0, 1]) .mnone
      rfl (Or.inl rfl) (by decide)
  · exact C7_spectrum_construction.2.2 (.nd [] [7]) (.nd [2] [0, 1]) .mnone
      (by decide) (by decide)

/-- When every decode up to `n` succeeds, the iteration loop from `i`
collects the decodes of `i..n-1` in order without warning. -/
theorem iterFrom_ok (get : ℕ → Except PyErr PySpectrum) (f : ℕ → PySpectrum) :
    ∀ (d i n : ℕ), d = n - i → (∀ k, i ≤ k → k < n → get k = .ok (f k)) →
      iterFrom get n i = .ok ((List.range' i d).map f, false) := by
  intro d
  induction d with
  | zero =>
    intro i n hd h
    rw [iterFrom, dif_neg (by omega)]
    rfl
  | succ d ih =>
    intro i n hd h
    have hin : i < n := by omega
    rw [iterFrom, dif_pos hin, h i le_rfl hin,
      ih (i + 1) n (by omega) (fun k hk1 hk2 => h k (by omega) hk2)]
    simp [List.range'_succ, Except.map]

/-- A catchable decode failure at the final index stops the loop with a
warning after yielding everything before it. -/
theorem iterFrom_last_err (get : ℕ → Except PyErr PySpectrum) (f : ℕ → PySpectrum)
    (e : PyErr) (he : e = .indexError ∨ e = .cannotReadSpectraError) :
    ∀ (d i n : ℕ), d = n - i → 1 ≤ d →
      (∀ k, i ≤ k → k < n - 1 → get k = .ok (f k)) →
      get (n - 1) = .error e →
      iterFrom get n i = .ok ((List.range' i (d - 1)).map f, true) := by
  intro d
  induction d with
  | zero => intro i n hd h1; omega
  | succ d ih =>
    intro i n hd h1 hok herr
    have hin : i < n := by omega
    by_cases hd0 : d = 0
    · subst hd0
      have hi : i = n - 1 := by omega
      rw [iterFrom, dif_pos hin, hi]
      simp only [herr]
      rw [if_pos he, if_pos (show n - (n - 1) = 1 from by omega)]
      rfl
    · have hilt : i < n - 1 := by omega
      rw [iterFrom, dif_pos hin, hok i le_rfl hilt,
        ih (i + 1) n (by omega) (by omega)
          (fun k hk1 hk2 => hok k (by omega) hk2) herr]
      have hd1 : d + 1 - 1 = (d - 1) + 1 := by omega
      rw [hd1, List.range'_succ]
      simp [Except.map]

/-- A catchable decode failure strictly before the final index propagates
out of the loop. -/
theorem iterFrom_early_err (get : ℕ → Except PyErr PySpectrum) (f : ℕ → PySpectrum)
    (e : PyErr) (he : e = .indexError ∨ e = .cannotReadSpectraError)
    (n j : ℕ) (hj : j < n - 1) (herr : get j = .error e) :
    ∀ (d i : ℕ), d = j - i → i ≤ j →
      (∀ k, i ≤ k → k < j → get k = .ok (f k)) →
      iterFrom get n i = .error e := by
  intro d
  induction d with
  | zero =>
    intro i hd hij hok
    have hi : i = j := by omega
    rw [iterFrom, dif_pos (by omega), hi]
    simp only [herr]
    rw [if_pos he, if_neg (show ¬ n - j = 1 from by omega)]
  | succ d ih =>
    intro i hd hij hok
    have hilt : i < j := by omega
    rw [iterFrom, dif_pos (by omega), hok i le_rfl hilt,
      ih (i + 1) (by omega) (by omega) (fun k hk1 hk2 => hok k (by omega) hk2)]
    rfl

/-- Claim C4 (confirmed): on an open reader of length `n`, `iter_data`
yields the decode of every index `0..n-1` in order; a decode failure
(IndexError or CannotReadSpectraError) at the final index `n-1` ends the
iteration after the first `n-1` items with a warning instead of propagating,
while the same failure at any earlier index propagates to the caller. -/
theorem C4_iter_data (n : ℕ) (get : ℕ → Except PyErr PySpectrum)
    (f : ℕ → PySpectrum) (e : PyErr) :
    ((∀ k, k < n → get k = .ok (f k)) →
      iterData initReaderState n get = .ok ((List.range n).map f, false))
    ∧ (1 ≤ n → (∀ k, k < n - 1 → get k = .ok (f k)) → get (n - 1) = .error e →
        (e = .indexError ∨ e = .cannotReadSpectraError) →
        iterData initReaderState n get = .ok ((List.range (n - 1)).map f, true))
    ∧ (∀ j, j < n - 1 → (∀ k, k < j → get k = .ok (f k)) → get j = .error e →
        (e = .indexError ∨ e = .cannotReadSpectraError) →
        iterData initReaderState n get = .error e) := by
  refine ⟨?_, ?_, ?_⟩
  · intro h
    rw [iterData, if_neg (by simp [initReaderState]), List.range_eq_range']
    exact iterFrom_ok get f n 0 n (by omega) (fun k _ hk => h k hk)
  · intro h1 hok herr he
    rw [iterData, if_neg (by simp [initReaderState]), List.range_eq_range']
    have h := iterFrom_last_err get f e he n 0 n (by omega) (by omega)
      (fun k _ hk => hok k hk) herr
    simpa using h
  · intro j hj hok herr he
    rw [iterData, if_neg (by simp [initReaderState])]
    exact iterFrom_early_err get f e he n j hj herr j 0 (by omega) (by omega)
      (fun k _ hk => hok k hk)

/-- Witness for C4: a 3-item series whose decode raises IndexError at index
2 yields exactly the first two items and the warning flag. -/
theorem C4_iter_data_witness :
    iterData initReaderState 3
        (fun k => if k < 2 then .ok sampleSpec else .error .indexError) =
      .ok ([sampleSpec, sampleSpec], true) := by
  have h := (C4_iter_data 3
      (fun k => if k < 2 then .ok sampleSpec else .error .indexError)
      (fun _ => sampleSpec) .indexError).2.1 (by omega)
    (fun k hk => by simp [show k < 2 from by omega])
    (by norm_num) (Or.inl rfl)
  exact h

/-- A probing pass returns the first acceptor and consults exactly the
non-acceptors before it plus the acceptor itself. -/
theorem probe_spec (l : List Desc) :
    probe l = (l.find? Desc.canRead,
      l.takeWhile (fun d => ! d.canRead) ++ (l.find? Desc.canRead).toList) := by
  induction l with
  | nil => rfl
  | cons d ds ih =>
    by_cases hc : d.canRead
    · simp [probe, hc, List.find?_cons, List.takeWhile_cons]
    · simp only [Bool.not_eq_true] at hc
      simp [probe, hc, ih, List.find?_cons, List.takeWhile_cons]

/-- Skipping the already-tried extension matches is the same as keeping the
non-matching descriptors. -/
theorem filter_not_contains_filter (l : List Desc) (p : Desc → Bool) :
    l.filter (fun d => ! (l.filter p).contains d) = l.filter (fun d => ! p d) := by
  apply List.filter_congr
  intro d hd
  by_cases hp : p d = true
  · have hdm : d ∈ l.filter p := List.mem_filter.mpr ⟨hd, hp⟩
    simp [List.contains, List.elem_iff, hdm, hp]
  · have hdm : d ∉ l.filter p := by
      intro hmem
      exact hp (List.mem_filter.mp hmem).2
    simp only [Bool.not_eq_true] at hp
    simp [List.contains, List.elem_iff, hdm, hp]

/-- Claim C2 (amended): `search_read_format` returns the first
extension-matching descriptor of the preference-sorted view whose `can_read`
accepts, consulting no descriptor after that acceptor; only when no
extension-matching descriptor accepts does it probe the remaining
descriptors — in the same preference-sorted view (not the base registration
order), skipping those already tried — and it returns `none` when nobody
accepts. -/
theorem C2_search_two_pass (fm : FM) (filename : String) :
    searchReadFormatTr fm filename =
      (((fm.formatsSorted.filter (extMatch filename)).find? Desc.canRead).orElse
          (fun _ => (fm.formatsSorted.filter
            (fun d => ! extMatch filename d)).find? Desc.canRead),
        ((fm.formatsSorted.filter (extMatch filename)).takeWhile (fun d => ! d.canRead)
          ++ ((fm.formatsSorted.filter (extMatch filename)).find? Desc.canRead).toList)
          ++ (match (fm.formatsSorted.filter (extMatch filename)).find? Desc.canRead with
              | some _ => []
              | none =>
                (fm.formatsSorted.filter
                  (fun d => ! extMatch filename d)).takeWhile (fun d => ! d.canRead)
                  ++ ((fm.formatsSorted.filter
                    (fun d => ! extMatch filename d)).find? Desc.canRead).toList)) := by
  simp only [searchReadFormatTr]
  rw [probe_spec, probe_spec, filter_not_contains_filter]
  cases hf : (fm.formatsSorted.filter (extMatch filename)).find? Desc.canRead with
  | some d => simp [hf, Option.orElse]
  | none => simp [hf, Option.orElse]

/-- Counterexample for C2 as stated: in the registry `c2FM` (base order
`[AAA, BBB]`, preference order `[BBB, AAA]` after `sort("bbb")`) and a
filename matching no extension, the source's fallback pass probes the
preference-sorted view and returns `BBB`, while the claim's
"registry order" fallback would return `AAA`. -/
theorem C2_counterexample_registry_order :
    c2FM.map (fun fm => searchReadFormat fm "file.xyz") = .ok (some c2DescB)
    ∧ c2FM.map (fun fm => searchReadFormatClaimC2 fm "file.xyz") = .ok (some c2DescA)
    ∧ some c2DescB ≠ some c2DescA := by
  refine ⟨by decide, by decide, by decide⟩

/-- Under a false `isfile`, looking up a non-empty dot-free name that is
found by the exact-name scan returns that descriptor. -/
theorem fmLookup_name_found (fm : FM) (nm : String) (old : Desc)
    (hne : nm ≠ "") (hdot : strContainsChar nm '.' = false)
    (hupper : pyUpper nm = nm)
    (hfind : fm.formatsSorted.find? (fun d => d.name = nm) = some old) :
    fmLookup (fun _ => false) fm nm = .found old := by
  unfold fmLookup
  rw [if_neg hne, if_neg (by simp), if_neg (by simp [hdot])]
  simp only [hupper, hfind]

/-- Removing the unique holder of a name and appending a fresh descriptor
with that name keeps the name list duplicate-free. -/
theorem nodup_names_erase_append (l : List Desc) (old f : Desc)
    (hnd : (l.map Desc.name).Nodup) (hmem : old ∈ l) (hname : old.name = f.name) :
    ((l.erase old ++ [f]).map Desc.name).Nodup := by
  have hlnd : l.Nodup := hnd.of_map
  have hsub : (l.erase old).Sublist l := List.erase_sublist old l
  have hnd2 : ((l.erase old).map Desc.name).Nodup := hnd.sublist (hsub.map Desc.name)
  have hnotmem : f.name ∉ (l.erase old).map Desc.name := by
    intro hmem2
    obtain ⟨d, hd_in, hd_name⟩ := List.mem_map.mp hmem2
    have hd_in_l : d ∈ l := hsub.mem hd_in
    have hd_eq_old : d = old :=
      List.inj_on_of_nodup_map hnd hd_in_l hmem (by rw [hd_name, hname])
    rw [hd_eq_old] at hd_in
    exact ((hlnd.mem_erase_iff).mp hd_in).1 rfl
  rw [List.map_append]
  simp [List.nodup_append, hnd2, hnotmem]

/-- Claim C8 (amended): for descriptors whose (uppercased) name is non-empty
and dot-free, `add_format` on a well-formed registry raises when the same
descriptor is already present, appends to both views on a fresh name, raises
on a name collision without `overwrite`, and with `overwrite` removes the
unique prior descriptor of that name from both views before appending — so
the registry stays well-formed, with both views permutations of each other
and pairwise-distinct names.  (The dot-free restriction is forced by the
counterexample: `self[format.name]` resolves dotted names by extension and
can remove an unrelated descriptor.) -/
theorem C8_add_format (fm : FM) (f : Desc) (ow : Bool)
    (hwf : WFfm fm) (hupper : pyUpper f.name = f.name)
    (hdot : strContainsChar f.name '.' = false) (hne : f.name ≠ "") :
    (f ∈ fm.formats →
      addFormat (fun _ => false) fm f ow = .error .valueError)
    ∧ (f ∉ fm.formats → f.name ∉ getFormatNames fm →
        addFormat (fun _ => false) fm f ow =
          .ok ⟨fm.formats ++ [f], fm.formatsSorted ++ [f]⟩
        ∧ WFfm ⟨fm.formats ++ [f], fm.formatsSorted ++ [f]⟩)
    ∧ (f ∉ fm.formats → f.name ∈ getFormatNames fm → ow = false →
        addFormat (fun _ => false) fm f ow = .error .valueError)
    ∧ (f ∉ fm.formats → f.name ∈ getFormatNames fm → ow = true →
        ∃ old, fm.formatsSorted.find? (fun d => d.name = f.name) = some old
          ∧ old.name = f.name
          ∧ addFormat (fun _ => false) fm f ow =
            .ok ⟨fm.formats.erase old ++ [f], fm.formatsSorted.erase old ++ [f]⟩
          ∧ WFfm ⟨fm.formats.erase old ++ [f], fm.formatsSorted.erase old ++ [f]⟩) := by
  refine ⟨?_, ?_, ?_, ?_⟩
  · intro hc
    simp [addFormat, hc]
  · intro hc hn
    constructor
    · simp [addFormat, hc, hn]
    · constructor
      · exact hwf.1.append_right [f]
      · have hnotin : f.name ∉ fm.formatsSorted.map Desc.name := hn
        rw [List.map_append]
        simp [List.nodup_append, hwf.2, hnotin]
  · intro hc hn how
    subst how
    simp [addFormat, hc, hn]
  · intro hc hn how
    subst how
    have hmemname : f.name ∈ fm.formatsSorted.map Desc.name := hn
    have hex : ∃ d ∈ fm.formatsSorted, (fun d => decide (d.name = f.name)) d = true := by
      obtain ⟨old, hold_in, hold_name⟩ := List.mem_map.mp hmemname
      exact ⟨old, hold_in, by simp [hold_name]⟩
    obtain ⟨old, hfind⟩ := Option.isSome_iff_exists.mp (List.find?_isSome.mpr hex)
    have hold_prop : (old.name = f.name) := by
      have := List.find?_some hfind
      simpa using this
    have hold_mem : old ∈ fm.formatsSorted := List.mem_of_find?_eq_some hfind
    refine ⟨old, hfind, hold_prop, ?_, ?_, ?_⟩
    · have hlook := fmLookup_name_found fm f.name old hne hdot hupper hfind
      have hold_mem_base : old ∈ fm.formats := hwf.1.mem_iff.mpr hold_mem
      have hrem : removeFirstDesc fm.formats old = .ok (fm.formats.erase old) := by
        unfold removeFirstDesc
        rw [if_pos (List.elem_iff.mpr hold_mem_base)]
      simp [addFormat, hc, hn, hlook, hrem, Except.map, hold_mem]
    · exact (hwf.1.erase old).append_right [f]
    · exact nodup_names_erase_append fm.formatsSorted old f hwf.2 hold_mem hold_prop

/-- Counterexample for C8 as stated: registering `A.B` (extension `.c`) and
`OTHER` (extension `.b`), then adding a new format named `A.B` with
`overwrite=True`, removes `OTHER` (the extension lookup of `self["A.B"]`
resolves `.b`) instead of the old `A.B`, leaving two descriptors named
`A.B` in both views. -/
theorem C8_counterexample_dotted_name :
    c8FM.map (fun fm => fm.formats.map Desc.name) = .ok ["A.B", "A.B"]
    ∧ c8FM.map (fun fm => fm.formatsSorted.map Desc.name) = .ok ["A.B", "A.B"]
    ∧ ¬ (["A.B", "A.B"] : List String).Nodup := by
  refine ⟨by decide, by decide, by decide⟩

/-- Witness for C8: overwriting the sole registered format named `X` with a
new descriptor of the same name replaces it in both views. -/
theorem C8_add_format_witness :
    addFormat (fun _ => false) ⟨[c8WitX], [c8WitX]⟩ c8WitF true =
      .ok ⟨[c8WitF], [c8WitF]⟩ := by
  obtain ⟨old, h1, h2, h3, h4⟩ :=
    (C8_add_format ⟨[c8WitX], [c8WitX]⟩ c8WitF true ⟨by decide, by decide⟩
        (by decide) (by decide) (by decide)).2.2.2
      (by decide) (by decide) rfl
  have h1' : some c8WitX = some old := h1
  cases h1'
  exact h3

/-- The code-point order on strings is total. -/
theorem charsLe_total : ∀ as bs : List Char, charsLe as bs = true ∨ charsLe bs as = true := by
  intro as
  induction as with
  | nil => intro bs; exact Or.inl rfl
  | cons a as ih =>
    intro bs
    cases bs with
    | nil => exact Or.inr rfl
    | cons b bs =>
      rcases Nat.lt_trichotomy a.toNat b.toNat with hab | hab | hab
      · left; simp [charsLe, hab]
      · rcases ih bs with h | h
        · left; simp [charsLe, hab, h]
        · right; simp [charsLe, hab, h]
      · right; simp [charsLe, hab]

/-- The code-point order on strings is transitive. -/
theorem charsLe_trans : ∀ as bs cs : List Char,
    charsLe as bs = true → charsLe bs cs = true → charsLe as cs = true := by
  intro as
  induction as with
  | nil => intro bs cs h1 h2; rfl
  | cons a as ih =>
    intro bs cs h1 h2
    match bs, cs with
    | [], _ => simp [charsLe] at h1
    | b :: bs, [] => simp [charsLe] at h2
    | b :: bs, c :: cs =>
      simp only [charsLe] at h1 h2 ⊢
      rcases Nat.lt_trichotomy a.toNat b.toNat with hab | hab | hab
      · rcases Nat.lt_trichotomy b.toNat c.toNat with hbc | hbc | hbc
        · rw [if_pos (by omega)]
        · rw [if_pos (by omega)]
        · rw [if_neg (by omega), if_pos (by omega)] at h2; cases h2
      · rcases Nat.lt_trichotomy b.toNat c.toNat with hbc | hbc | hbc
        · rw [if_pos (by omega)]
        · rw [if_neg (by omega), if_neg (by omega)] at h1
          rw [if_neg (by omega), if_neg (by omega)] at h2
          rw [if_neg (by omega), if_neg (by omega)]
          exact ih bs cs h1 h2
        · rw [if_neg (by omega), if_pos (by omega)] at h2; cases h2
      · rw [if_neg (by omega), if_pos (by omega)] at h1; cases h1

instance : IsTotal String pyStrLeRel := ⟨fun s t => charsLe_total s.data t.data⟩

instance : IsTrans String pyStrLeRel := ⟨fun a b c => charsLe_trans a.data b.data c.data⟩

/-- Patterns whose expansion is empty contribute nothing to the chained
filename list. -/
theorem flatten_map_filter {α β : Type} (h : α → List β) (q : α → Bool)
    (hq : ∀ u, q u = false → h u = []) (l : List α) :
    (l.map h).flatten = ((l.filter q).map h).flatten := by
  induction l with
  | nil => rfl
  | cons u l ih =>
    cases hqu : q u with
    | true => simp [List.filter_cons, hqu, ih]
    | false => simp [List.filter_cons, hqu, hq u hqu, ih]

/-- Claim C10 (confirmed): `specread` expands every input uri with glob and
sorts each pattern's matches before reading; a pattern matching no existing
file expands to nothing and is silently dropped, so a single misspelled
filename gives an empty expansion and `specread` fails with IndexError on
`spectrum[0]` (not a file-not-found error), while in a list input the
dropped patterns change nothing — the result is the same as reading only the
patterns that match existing files. -/
theorem C10_specread (glob : String → List String) (expandUser : String → String)
    (readOne : String → Except PyErr SpecOrList) (tol : ℚ) :
    (∀ bad, glob (expandUser bad) = [] →
      validateFilenames glob expandUser (.inl bad) = []
      ∧ specread glob expandUser readOne (.inl bad) tol = .error .indexError)
    ∧ (∀ uris : List String,
        specread glob expandUser readOne (.inr uris) tol =
          specread glob expandUser readOne
            (.inr (uris.filter (fun u => ! (glob (expandUser u)).isEmpty))) tol)
    ∧ (∀ u, List.Sorted pyStrLeRel (validateFilenames glob expandUser (.inl u))) := by
  refine ⟨?_, ?_, ?_⟩
  · intro bad hbad
    have hv : validateFilenames glob expandUser (.inl bad) = [] := by
      simp [validateFilenames, hbad, pySortStrings, List.insertionSort]
    refine ⟨hv, ?_⟩
    simp only [specread, hv]
    rfl
  · intro uris
    have hval : validateFilenames glob expandUser (.inr uris) =
        validateFilenames glob expandUser
          (.inr (uris.filter (fun u => ! (glob (expandUser u)).isEmpty))) := by
      simp only [validateFilenames]
      apply flatten_map_filter
      intro u hu
      simp only [Bool.not_eq_false', List.isEmpty_iff] at hu
      simp [pySortStrings, hu, List.insertionSort]
    simp only [specread, hval]
  · intro u
    exact List.sorted_insertionSort pyStrLeRel (glob (expandUser u))

/-- Witness for C10: with only `a.csv` and `b.csv` existing, a misspelled
single filename fails with IndexError, and a list containing the misspelled
name reads exactly as the list without it. -/
theorem C10_specread_witness :
    specread c10Glob id c10ReadOne (.inl "missing.csv") 0 = .error .indexError
    ∧ specread c10Glob id c10ReadOne (.inr ["missing.csv", "a.csv", "b.csv"]) 0 =
        specread c10Glob id c10ReadOne (.inr ["a.csv", "b.csv"]) 0 := by
  constructor
  · exact ((C10_specread c10Glob id c10ReadOne 0).1 "missing.csv" (by decide)).2
  · exact (C10_specread c10Glob id c10ReadOne 0).2.1 ["missing.csv", "a.csv", "b.csv"]
